import Mathlib

/-!
# BME280 sensor component of esphomelib: a shallow embedding

Source: `src/esphomelib/sensor/bme280_component.cpp` (namespace `sensor`); the
command handler of `src/esphomelib/cover/mqtt_cover_component.cpp` follows in
namespace `cover`.

Conventions of the embedding

* C++ fixed-width integers are `Int` (signed) or `Nat` (unsigned bytes and
  words); every arithmetic result is reduced to its width with `wrap32` /
  `wrap64` (two's complement wrap-around).  `>>` on a signed value is the
  arithmetic shift `Int.shiftRight` (floor division by a power of two), `<<`
  is multiplication by a power of two followed by the wrap.
* The last, floating-point step of each compensation formula is represented
  by the exact rational number the `float` approximates (`Reading.val`);
  `NAN` is `Reading.nan`.
* The I2C transport, the component status flags, the timeout scheduler and
  the sensor sinks are not part of the source file; the transport is a
  parameter (`I2CBus`), the others are fields of the component record.
-/

namespace esphomelib
namespace sensor

/-! ## Fixed-width integer arithmetic -/

/-- Reduction of an integer to the signed 32-bit range (two's complement). -/
def wrap32 (x : Int) : Int := (x + 2147483648) % 4294967296 - 2147483648

/-- Reduction of an integer to the signed 64-bit range (two's complement). -/
def wrap64 (x : Int) : Int :=
  (x + 9223372036854775808) % 18446744073709551616 - 9223372036854775808

/-- Reduction of an integer to the signed 16-bit range, the conversion
`uint16_t → int16_t` of `read_s16_le`. -/
def wrap16 (x : Int) : Int := (x + 32768) % 65536 - 32768

/-- Membership in the signed 64-bit range. -/
def inRange64 (x : Int) : Prop := -9223372036854775808 ≤ x ∧ x ≤ 9223372036854775807

instance (x : Int) : Decidable (inRange64 x) := by
  unfold inRange64; infer_instance

def add32 (a b : Int) : Int := wrap32 (a + b)
def sub32 (a b : Int) : Int := wrap32 (a - b)
def mul32 (a b : Int) : Int := wrap32 (a * b)
def shl32 (a : Int) (k : Nat) : Int := wrap32 (a * 2 ^ k)
/-- Arithmetic right shift of a signed value. -/
def sar (a : Int) (k : Nat) : Int := a >>> k

/-- Arithmetic faults of the integer engine. -/
inductive Fault where
  | divisionByZero
  deriving DecidableEq

/-- Signed 64-bit division `a / b` of C++: truncation toward zero, a fault
when the divisor is zero. -/
def div64 (a b : Int) : Except Fault Int :=
  if b = 0 then .error .divisionByZero else .ok (wrap64 (Int.tdiv a b))

/-! ## Data model -/

/-- Modelled from the spec: the calibration record `BME280CalibrationData`
declared in `bme280_component.h`, which is not among the source files.  Field
widths follow the spec's data model: `t1`, `p1` unsigned 16-bit; `t2`, `t3`,
`p2`..`p9`, `h2` signed 16-bit; `h1`, `h3`, `h6` unsigned 8-bit; `h4`, `h5`
12-bit composites held in a signed 16-bit field. -/
structure BME280CalibrationData where
  t1 : Int
  t2 : Int
  t3 : Int
  p1 : Int
  p2 : Int
  p3 : Int
  p4 : Int
  p5 : Int
  p6 : Int
  p7 : Int
  p8 : Int
  p9 : Int
  h1 : Int
  h2 : Int
  h3 : Int
  h4 : Int
  h5 : Int
  h6 : Int
  deriving DecidableEq

/-- A calibrated value as returned by the three `read_*_` functions: `nan` is
the C++ `NAN`, `val q` a finite float, represented by the rational it
approximates. -/
inductive Reading where
  | nan
  | val (q : ℚ)
  deriving DecidableEq

/-- The C++ `isnan`. -/
def Reading.isnan : Reading → Bool
  | .nan => true
  | .val _ => false

/-! ## Compensation formulas (integer stages) -/

/-- The 20-bit raw value of `read_temperature_` and `read_pressure_`:
`((data[0] & 0xFF) << 16 | (data[1] & 0xFF) << 8 | (data[2] & 0xFF)) >> 4`. -/
def adc20 (d0 d1 d2 : Nat) : Nat :=
  ((((d0 &&& 0xFF) <<< 16) ||| ((d1 &&& 0xFF) <<< 8)) ||| (d2 &&& 0xFF)) >>> 4

/-- Lines 210-216 of `read_temperature_`: the value stored through `t_fine`. -/
def temperature_t_fine (cal : BME280CalibrationData) (adc : Int) : Int :=
  let t1 := wrap32 cal.t1
  let t2 := wrap32 cal.t2
  let t3 := wrap32 cal.t3
  let var1 := sar (mul32 (sub32 (sar adc 3) (shl32 t1 1)) t2) 11
  let var2 := sar (mul32 (sar (mul32 (sub32 (sar adc 4) t1) (sub32 (sar adc 4) t1)) 12) t3) 14
  add32 var1 var2

/-- Line 218 of `read_temperature_`: the integer `(*t_fine * 5 + 128) >> 8`
that is converted to `float`. -/
def temperature_centi (t_fine : Int) : Int :=
  sar (add32 (mul32 t_fine 5) 128) 8

/-- Result of the integer stage of `read_pressure_` (lines 231-257). -/
structure PressureEval where
  /-- exact value of every arithmetic result before its reduction to 64 bits,
  in program order -/
  raws : List Int
  /-- the value of `var1` tested by `if (var1 == 0)` and used as divisor -/
  var1 : Int
  /-- the final fixed-point `p`; `none` when the function returned `NAN` at
  the zero test -/
  p : Except Fault (Option Int)

/-- Lines 231-257 of `read_pressure_`, with `adc` the 20-bit raw value. -/
def pressure_eval (cal : BME280CalibrationData) (t_fine adc : Int) : PressureEval :=
  let p1 := wrap64 cal.p1
  let p2 := wrap64 cal.p2
  let p3 := wrap64 cal.p3
  let p4 := wrap64 cal.p4
  let p5 := wrap64 cal.p5
  let p6 := wrap64 cal.p6
  let p7 := wrap64 cal.p7
  let p8 := wrap64 cal.p8
  let p9 := wrap64 cal.p9
  -- var1 = int64_t(t_fine) - 128000;
  let r1 := wrap32 t_fine - 128000
  let v := wrap64 r1
  -- var2 = var1 * var1 * p6;
  let r2 := v * v
  let r3 := wrap64 r2 * p6
  let var2a := wrap64 r3
  -- var2 = var2 + ((var1 * p5) << 17);
  let r4 := v * p5
  let r5 := wrap64 r4 * 2 ^ 17
  let r6 := var2a + wrap64 r5
  let var2b := wrap64 r6
  -- var2 = var2 + (p4 << 35);
  let r7 := p4 * 2 ^ 35
  let r8 := var2b + wrap64 r7
  let var2 := wrap64 r8
  -- var1 = ((var1 * var1 * p3) >> 8) + ((var1 * p2) << 12);
  let r9 := wrap64 r2 * p3
  let r10 := v * p2
  let r11 := wrap64 r10 * 2 ^ 12
  let r12 := sar (wrap64 r9) 8 + wrap64 r11
  let var1a := wrap64 r12
  -- var1 = ((int64_t(1) << 47) + var1) * p1 >> 33;
  let r13 := 2 ^ 47 + var1a
  let r14 := wrap64 r13 * p1
  let var1 := sar (wrap64 r14) 33
  let pre := [r1, r2, r3, r4, r5, r6, r7, r8, r9, r10, r11, r12, r13, r14]
  if var1 = 0 then
    { raws := pre, var1 := var1, p := .ok none }
  else
    -- p = 1048576 - adc;
    let r15 := 1048576 - adc
    let pa := wrap64 (wrap32 r15)
    -- p = (((p << 31) - var2) * 3125) / var1;
    let r16 := pa * 2 ^ 31
    let r17 := wrap64 r16 - var2
    let r18 := wrap64 r17 * 3125
    match div64 (wrap64 r18) var1 with
    | .error f => { raws := pre ++ [r15, r16, r17, r18], var1 := var1, p := .error f }
    | .ok pb =>
      -- var1 = (p9 * (p >> 13) * (p >> 13)) >> 25;
      let r19 := p9 * sar pb 13
      let r20 := wrap64 r19 * sar pb 13
      let var1c := sar (wrap64 r20) 25
      -- var2 = (p8 * p) >> 19;
      let r21 := p8 * pb
      let var2c := sar (wrap64 r21) 19
      -- p = ((p + var1 + var2) >> 8) + (p7 << 4);
      let r22 := pb + var1c
      let r23 := wrap64 r22 + var2c
      let r24 := p7 * 2 ^ 4
      let r25 := sar (wrap64 r23) 8 + wrap64 r24
      { raws := pre ++ [r15, r16, r17, r18, Int.tdiv (wrap64 r18) var1,
                        r19, r20, r21, r22, r23, r24, r25],
        var1 := var1, p := .ok (some (wrap64 r25)) }

/-- Lines 275-281 of `read_humidity_`: `v_x1_u32r` before the clamp. -/
def humidity_unclamped (cal : BME280CalibrationData) (t_fine adc : Int) : Int :=
  let h1 := wrap32 cal.h1
  let h2 := wrap32 cal.h2
  let h3 := wrap32 cal.h3
  let h4 := wrap32 cal.h4
  let h5 := wrap32 cal.h5
  let h6 := wrap32 cal.h6
  let v := sub32 (wrap32 t_fine) 76800
  let a := sar (add32 (sub32 (sub32 (shl32 adc 14) (shl32 h4 20)) (mul32 h5 v)) 16384) 15
  let b := sar (add32 (mul32 (add32 (sar (mul32 (sar (mul32 v h6) 10)
              (add32 (sar (mul32 v h3) 11) 32768)) 10) 2097152) h2) 8192) 14
  let v := mul32 a b
  sub32 v (sar (mul32 (sar (mul32 (sar v 15) (sar v 15)) 7) h1) 4)

/-- Lines 283-284 of `read_humidity_`: the two clamping assignments. -/
def humidity_clamp (v : Int) : Int :=
  let v := if v < 0 then 0 else v
  if v > 419430400 then 419430400 else v

/-- Line 285 of `read_humidity_`: the integer `v_x1_u32r >> 12` converted to
`float`. -/
def humidity_scaled (cal : BME280CalibrationData) (t_fine adc : Int) : Int :=
  sar (humidity_clamp (humidity_unclamped cal t_fine adc)) 12

/-! ## Single-precision arithmetic of the conversion delay

`update()` computes the conversion time in `float`.  The values that occur are
positive and lie far inside the normal range, so a binary32 value is
represented by the natural number `x * 2^40`; every operation rounds its exact
result to 24 significant bits, ties to even. -/

/-- Number of low bits to drop so that 24 significant bits remain: the least
`s` with `n / 2^s < 2^24` (for `n` below `2^(24 + fuel)`). -/
def f32_shift : Nat → Nat → Nat
  | 0, _ => 0
  | fuel + 1, n => if n < 2 ^ 24 then 0 else f32_shift fuel (n / 2) + 1

/-- Round a natural number (below `2^152`) to 24 significant bits, round to
nearest, ties to even. -/
def f32_round (n : Nat) : Nat :=
  let s := f32_shift 128 n
  if s = 0 then n
  else
    let q := n >>> s
    let r := n % 2 ^ s
    let h := 2 ^ (s - 1)
    let q := if r > h ∨ (r = h ∧ q % 2 = 1) then q + 1 else q
    q <<< s

/-- Conversion of an unsigned integer to `float` (unit `2^-40`). -/
def f32_of_nat (n : Nat) : Nat := f32_round (n * 2 ^ 40)
/-- Single-precision addition. -/
def f32_add (a b : Nat) : Nat := f32_round (a + b)
/-- Single-precision multiplication. -/
def f32_mul (a b : Nat) : Nat := f32_round (a * b) / 2 ^ 40
/-- The C `ceilf` followed by the conversion to `uint32_t`. -/
def f32_ceil_u32 (a : Nat) : Nat := ((a + (2 ^ 40 - 1)) / 2 ^ 40) % 4294967296

/-- The literal `2.3f` = `0x933333 * 2^-22`. -/
def f32_2_3 : Nat := 9646899 * 2 ^ 18
/-- The literal `0.575f` = `0x933333 * 2^-24`. -/
def f32_0_575 : Nat := 9646899 * 2 ^ 16
/-- The literal `1.5f`. -/
def f32_1_5 : Nat := 3 * 2 ^ 39

/-- Lines 160-162: `(1 << uint8_t(over_sampling)) >> 1` returned as `uint8_t`. -/
def oversampling_to_time (over_sampling : Nat) : Nat :=
  ((1 <<< (over_sampling % 256)) >>> 1) % 256

/-- Lines 176-181 of `update()`: the delay passed to `set_timeout`,
`uint32_t(ceilf(meas_time * 1.5f))`. -/
def meas_delay (t_os p_os h_os : Nat) : Nat :=
  let meas_time := f32_of_nat 1
  let meas_time := f32_add meas_time (f32_mul f32_2_3 (f32_of_nat (oversampling_to_time t_os)))
  let meas_time := f32_add meas_time
    (f32_add (f32_mul f32_2_3 (f32_of_nat (oversampling_to_time p_os))) f32_0_575)
  let meas_time := f32_add meas_time
    (f32_add (f32_mul f32_2_3 (f32_of_nat (oversampling_to_time h_os))) f32_0_575)
  f32_ceil_u32 (f32_mul meas_time f32_1_5)

/-- Lines 176-179 of `update()`: the value of `meas_time` before the scaling
by `1.5f` (unit `2^-40`). -/
def meas_time (t_os p_os h_os : Nat) : Nat :=
  let meas_time := f32_of_nat 1
  let meas_time := f32_add meas_time (f32_mul f32_2_3 (f32_of_nat (oversampling_to_time t_os)))
  let meas_time := f32_add meas_time
    (f32_add (f32_mul f32_2_3 (f32_of_nat (oversampling_to_time p_os))) f32_0_575)
  f32_add meas_time
    (f32_add (f32_mul f32_2_3 (f32_of_nat (oversampling_to_time h_os))) f32_0_575)

/-! ## Registers -/

def BME280_REGISTER_DIG_T1 : Nat := 0x88
def BME280_REGISTER_DIG_T2 : Nat := 0x8A
def BME280_REGISTER_DIG_T3 : Nat := 0x8C
def BME280_REGISTER_DIG_P1 : Nat := 0x8E
def BME280_REGISTER_DIG_P2 : Nat := 0x90
def BME280_REGISTER_DIG_P3 : Nat := 0x92
def BME280_REGISTER_DIG_P4 : Nat := 0x94
def BME280_REGISTER_DIG_P5 : Nat := 0x96
def BME280_REGISTER_DIG_P6 : Nat := 0x98
def BME280_REGISTER_DIG_P7 : Nat := 0x9A
def BME280_REGISTER_DIG_P8 : Nat := 0x9C
def BME280_REGISTER_DIG_P9 : Nat := 0x9E
def BME280_REGISTER_DIG_H1 : Nat := 0xA1
def BME280_REGISTER_DIG_H2 : Nat := 0xE1
def BME280_REGISTER_DIG_H3 : Nat := 0xE3
def BME280_REGISTER_DIG_H4 : Nat := 0xE4
def BME280_REGISTER_DIG_H5 : Nat := 0xE5
def BME280_REGISTER_DIG_H6 : Nat := 0xE7
def BME280_REGISTER_CHIPID : Nat := 0xD0
def BME280_REGISTER_CONTROLHUMID : Nat := 0xF2
def BME280_REGISTER_STATUS : Nat := 0xF3
def BME280_REGISTER_CONTROL : Nat := 0xF4
def BME280_REGISTER_CONFIG : Nat := 0xF5
def BME280_REGISTER_PRESSUREDATA : Nat := 0xF7
def BME280_REGISTER_TEMPDATA : Nat := 0xFA
def BME280_REGISTER_HUMIDDATA : Nat := 0xFD
def BME280_MODE_FORCED : Nat := 0b01

/-! ## Transport and component state -/

/-- The register transport of `I2CDevice` (not part of the source file), taken
as a parameter: a deterministic machine over an arbitrary state `σ`.  A read
answers `none` for a failed transfer (the C++ functions return `false` and
leave the destination untouched), a write answers its success flag. -/
structure I2CBus (σ : Type) where
  read_byte : σ → Nat → Option Nat × σ
  read_byte_16 : σ → Nat → Option Nat × σ
  read_bytes : σ → Nat → Nat → Option (List Nat) × σ
  write_byte : σ → Nat → Nat → Bool × σ

/-- One transfer on the bus together with its outcome, as seen by the
component (values already reduced to the width of their destination). -/
inductive BusOp where
  | read_byte (reg : Nat) (res : Option Nat)
  | read_byte_16 (reg : Nat) (res : Option Nat)
  | read_bytes (reg len : Nat) (res : Option (List Nat))
  | write_byte (reg value : Nat) (ok : Bool)
  deriving DecidableEq

/-- Register addressed by a transfer. -/
def BusOp.reg : BusOp → Nat
  | .read_byte r _ => r
  | .read_byte_16 r _ => r
  | .read_bytes r _ _ => r
  | .write_byte r _ _ => r

/-- Whether the transfer succeeded. -/
def BusOp.ok : BusOp → Bool
  | .read_byte _ res => res.isSome
  | .read_byte_16 _ res => res.isSome
  | .read_bytes _ _ res => res.isSome
  | .write_byte _ _ ok => ok

/-- Whether the transfer is a register write. -/
def BusOp.isWrite : BusOp → Bool
  | .write_byte _ _ _ => true
  | _ => false

/-- The three sensor objects owned by the component. -/
inductive Channel where
  | temperature
  | pressure
  | humidity
  deriving DecidableEq

/-- The deferred callbacks the component registers; `data` is the lambda of
`update()` (lines 181-198). -/
inductive Callback where
  | data
  deriving DecidableEq

/-- An armed one-shot timeout: `set_timeout(name, delay, callback)`. -/
structure Timeout where
  name : String
  delay : Nat
  callback : Callback
  deriving DecidableEq

/-- State of a `BME280Component` together with the state of its bus and the
observable history.  `log` lists the bus transfers in program order,
`pushed` the `push_new_value` calls, `timeouts` the armed timeouts.  The
oversampling and filter fields hold the numeric value of the enumerators
(`BME280_OVERSAMPLING_NONE` = 0 .. `BME280_OVERSAMPLING_16X` = 5,
`BME280_IIR_FILTER_OFF` = 0 .. `BME280_IIR_FILTER_16X` = 4). -/
structure BME280Component (σ : Type) where
  bus : σ
  log : List BusOp
  calibration_ : BME280CalibrationData
  temperature_oversampling_ : Nat
  pressure_oversampling_ : Nat
  humidity_oversampling_ : Nat
  iir_filter_ : Nat
  /-- set by `mark_failed()` -/
  failed : Bool
  /-- set by `status_set_warning()`, cleared by `status_clear_warning()` -/
  warning : Bool
  timeouts : List Timeout
  pushed : List (Channel × Reading)

variable {σ : Type}

/-- Modelled from the spec: `Component::mark_failed()`, the device is marked
permanently failed. -/
def mark_failed (c : BME280Component σ) : BME280Component σ :=
  { c with failed := true }

/-- Modelled from the spec: `Component::status_set_warning()`, the recoverable
warning status. -/
def status_set_warning (c : BME280Component σ) : BME280Component σ :=
  { c with warning := true }

/-- Modelled from the spec: `Component::status_clear_warning()`. -/
def status_clear_warning (c : BME280Component σ) : BME280Component σ :=
  { c with warning := false }

/-- Modelled from the spec: `Component::set_timeout`, the scheduling
primitive `schedule_once(name, delay, callback)`; it arms one deferred
callback. -/
def set_timeout (c : BME280Component σ) (name : String) (delay : Nat) (cb : Callback) :
    BME280Component σ :=
  { c with timeouts := c.timeouts ++ [{ name := name, delay := delay, callback := cb }] }

/-- Modelled from the spec: `Sensor::push_new_value`, one `push` to the
Output Sink of a channel. -/
def push_new_value (c : BME280Component σ) (ch : Channel) (v : Reading) : BME280Component σ :=
  { c with pushed := c.pushed ++ [(ch, v)] }

/-- `I2CDevice::read_byte(reg, &data)`: the byte read, `none` on failure. -/
def read_byte (bus : I2CBus σ) (c : BME280Component σ) (reg : Nat) :
    Option Nat × BME280Component σ :=
  let r := bus.read_byte c.bus reg
  let v := r.1.map (fun x => x % 256)
  (v, { c with bus := r.2, log := c.log ++ [BusOp.read_byte reg v] })

/-- `I2CDevice::read_byte_16(reg, &data)`: the 16-bit word read (first byte
in the high half), `none` on failure. -/
def read_byte_16 (bus : I2CBus σ) (c : BME280Component σ) (reg : Nat) :
    Option Nat × BME280Component σ :=
  let r := bus.read_byte_16 c.bus reg
  let v := r.1.map (fun x => x % 65536)
  (v, { c with bus := r.2, log := c.log ++ [BusOp.read_byte_16 reg v] })

/-- `I2CDevice::read_bytes(reg, data, len)`: the bytes stored in `data[0..len)`,
`none` on failure. -/
def read_bytes (bus : I2CBus σ) (c : BME280Component σ) (reg len : Nat) :
    Option (List Nat) × BME280Component σ :=
  let r := bus.read_bytes c.bus reg len
  let v := r.1.map (fun l => (List.range len).map (fun i => l.getD i 0 % 256))
  (v, { c with bus := r.2, log := c.log ++ [BusOp.read_bytes reg len v] })

/-- `I2CDevice::write_byte(reg, value)`: the success flag. -/
def write_byte (bus : I2CBus σ) (c : BME280Component σ) (reg value : Nat) :
    Bool × BME280Component σ :=
  let r := bus.write_byte c.bus reg value
  (r.1, { c with bus := r.2, log := c.log ++ [BusOp.write_byte reg value r.1] })

/-- Lines 310-314: `read_u8`; the result of `read_byte` is ignored and `data`
keeps its initial 0 when the transfer fails. -/
def read_u8 (bus : I2CBus σ) (c : BME280Component σ) (register_ : Nat) :
    Nat × BME280Component σ :=
  let r := read_byte bus c register_
  (r.1.getD 0, r.2)

/-- Line 318: the byte swap `(data >> 8) | (data << 8)` on `uint16_t`. -/
def swap16 (data : Nat) : Nat := ((data >>> 8) ||| (data <<< 8)) % 65536

/-- Lines 315-319: `read_u16_le`. -/
def read_u16_le (bus : I2CBus σ) (c : BME280Component σ) (register_ : Nat) :
    Nat × BME280Component σ :=
  let r := read_byte_16 bus c register_
  (swap16 (r.1.getD 0), r.2)

/-- Lines 320-322: `read_s16_le`, the conversion of `read_u16_le` to
`int16_t`. -/
def read_s16_le (bus : I2CBus σ) (c : BME280Component σ) (register_ : Nat) :
    Int × BME280Component σ :=
  let r := read_u16_le bus c register_
  (wrap16 (r.1 : Int), r.2)

/-! ## Initialisation -/

/-- Line 122: `read_u8(H4) << 4 | (read_u8(H4 + 1) & 0x0F)` on the two bytes
read, stored in the 16-bit signed field `h4`. -/
def unpack_h4 (e4 e5 : Nat) : Int := wrap16 (((e4 <<< 4) ||| (e5 &&& 0x0F) : Nat) : Int)

/-- Line 123: `read_u8(H5 + 1) << 4 | (read_u8(H5) >> 4)` on the two bytes
read, stored in the 16-bit signed field `h5`. -/
def unpack_h5 (e5 e6 : Nat) : Int := wrap16 (((e6 <<< 4) ||| (e5 >>> 4) : Nat) : Int)

/-- An assignment `this->calibration_.x = read_u16_le(reg)`; `set` names the
field assigned. -/
def load_u16 (bus : I2CBus σ) (reg : Nat)
    (set : BME280CalibrationData → Int → BME280CalibrationData)
    (c : BME280Component σ) : BME280Component σ :=
  let r := read_u16_le bus c reg
  { r.2 with calibration_ := set r.2.calibration_ (r.1 : Int) }

/-- An assignment `this->calibration_.x = read_s16_le(reg)`. -/
def load_s16 (bus : I2CBus σ) (reg : Nat)
    (set : BME280CalibrationData → Int → BME280CalibrationData)
    (c : BME280Component σ) : BME280Component σ :=
  let r := read_s16_le bus c reg
  { r.2 with calibration_ := set r.2.calibration_ r.1 }

/-- An assignment `this->calibration_.x = read_u8(reg)`. -/
def load_u8 (bus : I2CBus σ) (reg : Nat)
    (set : BME280CalibrationData → Int → BME280CalibrationData)
    (c : BME280Component σ) : BME280Component σ :=
  let r := read_u8 bus c reg
  { r.2 with calibration_ := set r.2.calibration_ (r.1 : Int) }

/-- Line 122: `calibration_.h4 = read_u8(H4) << 4 | (read_u8(H4 + 1) & 0x0F)`
(operands read left to right). -/
def load_h4 (bus : I2CBus σ) (c : BME280Component σ) : BME280Component σ :=
  let a := read_u8 bus c BME280_REGISTER_DIG_H4
  let b := read_u8 bus a.2 (BME280_REGISTER_DIG_H4 + 1)
  { b.2 with calibration_ := { b.2.calibration_ with h4 := unpack_h4 a.1 b.1 } }

/-- Line 123: `calibration_.h5 = read_u8(H5 + 1) << 4 | (read_u8(H5) >> 4)`
(operands read left to right). -/
def load_h5 (bus : I2CBus σ) (c : BME280Component σ) : BME280Component σ :=
  let a := read_u8 bus c (BME280_REGISTER_DIG_H5 + 1)
  let b := read_u8 bus a.2 BME280_REGISTER_DIG_H5
  { b.2 with calibration_ := { b.2.calibration_ with h5 := unpack_h5 b.1 a.1 } }

/-- Lines 104-124 of `setup()`: the calibration assignments in source order. -/
def read_calibration (bus : I2CBus σ) (c : BME280Component σ) : BME280Component σ :=
  c |> load_u16 bus BME280_REGISTER_DIG_T1 (fun cal v => { cal with t1 := v })
    |> load_s16 bus BME280_REGISTER_DIG_T2 (fun cal v => { cal with t2 := v })
    |> load_s16 bus BME280_REGISTER_DIG_T3 (fun cal v => { cal with t3 := v })
    |> load_u16 bus BME280_REGISTER_DIG_P1 (fun cal v => { cal with p1 := v })
    |> load_s16 bus BME280_REGISTER_DIG_P2 (fun cal v => { cal with p2 := v })
    |> load_s16 bus BME280_REGISTER_DIG_P3 (fun cal v => { cal with p3 := v })
    |> load_s16 bus BME280_REGISTER_DIG_P4 (fun cal v => { cal with p4 := v })
    |> load_s16 bus BME280_REGISTER_DIG_P5 (fun cal v => { cal with p5 := v })
    |> load_s16 bus BME280_REGISTER_DIG_P6 (fun cal v => { cal with p6 := v })
    |> load_s16 bus BME280_REGISTER_DIG_P7 (fun cal v => { cal with p7 := v })
    |> load_s16 bus BME280_REGISTER_DIG_P8 (fun cal v => { cal with p8 := v })
    |> load_s16 bus BME280_REGISTER_DIG_P9 (fun cal v => { cal with p9 := v })
    |> load_u8 bus BME280_REGISTER_DIG_H1 (fun cal v => { cal with h1 := v })
    |> load_s16 bus BME280_REGISTER_DIG_H2 (fun cal v => { cal with h2 := v })
    |> load_u8 bus BME280_REGISTER_DIG_H3 (fun cal v => { cal with h3 := v })
    |> load_h4 bus
    |> load_h5 bus
    |> load_u8 bus BME280_REGISTER_DIG_H6 (fun cal v => { cal with h6 := v })

/-- Lines 136-137: the byte written to the humidity-control register. -/
def humid_register_value (humid_register humidity_oversampling : Nat) : Nat :=
  (((humid_register % 256) &&& 0b11111000) ||| (humidity_oversampling &&& 0b111)) % 256

/-- Lines 148-150: the byte written to the config register. -/
def config_register_value (config_register iir_filter : Nat) : Nat :=
  ((((config_register % 256) &&& 0b00000011) ||| (0b000 <<< 5)) |||
    ((iir_filter &&& 0b111) <<< 2)) % 256

/-- Lines 131-154 of `setup()`: the humidity-control and config registers. -/
def write_configuration (bus : I2CBus σ) (c : BME280Component σ) : BME280Component σ :=
  let rh := read_byte bus c BME280_REGISTER_CONTROLHUMID
  match rh.1 with
  | none => mark_failed rh.2
  | some humid_register =>
    let wh := write_byte bus rh.2 BME280_REGISTER_CONTROLHUMID
      (humid_register_value humid_register rh.2.humidity_oversampling_)
    if wh.1 = false then mark_failed wh.2
    else
      let rc := read_byte bus wh.2 BME280_REGISTER_CONFIG
      match rc.1 with
      | none => mark_failed rc.2
      | some config_register =>
        let wc := write_byte bus rc.2 BME280_REGISTER_CONFIG
          (config_register_value config_register rc.2.iir_filter_)
        if wc.1 = false then mark_failed wc.2 else wc.2

/-- Lines 94-155: `BME280Component::setup()`. -/
def setup (bus : I2CBus σ) (c : BME280Component σ) : BME280Component σ :=
  let r := read_byte bus c BME280_REGISTER_CHIPID
  match r.1 with
  | none => mark_failed r.2
  | some chip_id =>
    if chip_id ≠ 0x60 then mark_failed r.2
    else write_configuration bus (read_calibration bus r.2)

/-! ## Conversion cycle -/

/-- Lines 200-220: `read_temperature_`; the second component is the value of
`*t_fine` on return. -/
def read_temperature_ (bus : I2CBus σ) (c : BME280Component σ) (t_fine : Int) :
    Reading × Int × BME280Component σ :=
  let r := read_bytes bus c BME280_REGISTER_TEMPDATA 3
  match r.1 with
  | none => (Reading.nan, t_fine, r.2)
  | some data =>
    let adc := adc20 (data.getD 0 0) (data.getD 1 0) (data.getD 2 0)
    if adc = 0x80000 then (Reading.nan, t_fine, r.2)
    else
      let tf := temperature_t_fine r.2.calibration_ (adc : Int)
      (Reading.val ((temperature_centi tf : ℚ) / 100), tf, r.2)

/-- Lines 222-259: `read_pressure_`. -/
def read_pressure_ (bus : I2CBus σ) (c : BME280Component σ) (t_fine : Int) :
    Except Fault Reading × BME280Component σ :=
  let r := read_bytes bus c BME280_REGISTER_PRESSUREDATA 3
  match r.1 with
  | none => (.ok Reading.nan, r.2)
  | some data =>
    let adc := adc20 (data.getD 0 0) (data.getD 1 0) (data.getD 2 0)
    if adc = 0x80000 then (.ok Reading.nan, r.2)
    else
      match (pressure_eval r.2.calibration_ t_fine (adc : Int)).p with
      | .error f => (.error f, r.2)
      | .ok none => (.ok Reading.nan, r.2)
      | .ok (some p) => (.ok (Reading.val ((p : ℚ) / 256 / 100)), r.2)

/-- Lines 261-288: `read_humidity_`. -/
def read_humidity_ (bus : I2CBus σ) (c : BME280Component σ) (t_fine : Int) :
    Reading × BME280Component σ :=
  let r := read_byte_16 bus c BME280_REGISTER_HUMIDDATA
  match r.1 with
  | none => (Reading.nan, r.2)
  | some raw_adc =>
    if raw_adc = 0x8000 then (Reading.nan, r.2)
    else
      (Reading.val ((humidity_scaled r.2.calibration_ t_fine (raw_adc : Int) : ℚ) / 1024), r.2)

/-- Lines 181-198: the lambda armed by `update()` under the name "data". -/
def update_data_callback (bus : I2CBus σ) (c : BME280Component σ) :
    Except Fault (BME280Component σ) :=
  let rt := read_temperature_ bus c 0
  if rt.1.isnan = true then .ok (status_set_warning rt.2.2)
  else
    let rp := read_pressure_ bus rt.2.2 rt.2.1
    match rp.1 with
    | .error f => .error f
    | .ok pressure =>
      let rh := read_humidity_ bus rp.2 rt.2.1
      let c1 := push_new_value rh.2 Channel.temperature rt.1
      let c2 := push_new_value c1 Channel.pressure pressure
      let c3 := push_new_value c2 Channel.humidity rh.1
      .ok (status_clear_warning c3)

/-- Execution of an armed callback when its timeout fires. -/
def Callback.run (cb : Callback) (bus : I2CBus σ) (c : BME280Component σ) :
    Except Fault (BME280Component σ) :=
  match cb with
  | .data => update_data_callback bus c

/-- Lines 167-170 of `update()`: the byte written to the measurement-control
register. -/
def meas_register_value (temperature_oversampling pressure_oversampling : Nat) : Nat :=
  ((((temperature_oversampling &&& 0b111) <<< 5) |||
    ((pressure_oversampling &&& 0b111) <<< 2)) ||| 0b01) % 256

/-- Lines 164-199: `BME280Component::update()`. -/
def update (bus : I2CBus σ) (c : BME280Component σ) : BME280Component σ :=
  let w := write_byte bus c BME280_REGISTER_CONTROL
    (meas_register_value c.temperature_oversampling_ c.pressure_oversampling_)
  if w.1 = false then status_set_warning w.2
  else
    set_timeout w.2 "data"
      (meas_delay w.2.temperature_oversampling_ w.2.pressure_oversampling_
        w.2.humidity_oversampling_)
      Callback.data

/-! ## Concrete devices used to exercise the definitions -/

/-- A bus backed by a register file: register `reg` answers `mem reg`, a
register without content (`none`) makes the transfer fail; a 16-bit read
delivers the byte at `reg` in the high half; every write succeeds. -/
def memory_bus (mem : Nat → Option Nat) : I2CBus Unit where
  read_byte := fun _ reg => (mem reg, ())
  read_byte_16 := fun _ reg =>
    (match mem reg, mem (reg + 1) with
      | some a, some b => some (a * 256 + b)
      | _, _ => none, ())
  read_bytes := fun _ reg len =>
    (if (List.range len).all (fun i => (mem (reg + i)).isSome)
      then some ((List.range len).map (fun i => (mem (reg + i)).getD 0))
      else none, ())
  write_byte := fun _ _ _ => (true, ())

/-- The calibration of the vendor's worked example (temperature and pressure
coefficients of the data sheet), with sample humidity coefficients. -/
def reference_calibration : BME280CalibrationData :=
  { t1 := 27504, t2 := 26435, t3 := -1000,
    p1 := 36477, p2 := -10685, p3 := 3024, p4 := 2855, p5 := 140,
    p6 := -7, p7 := 15500, p8 := -14600, p9 := 6000,
    h1 := 75, h2 := 370, h3 := 0, h4 := 313, h5 := 50, h6 := 30 }

/-- A component on a `memory_bus` with the reference calibration, all three
channels at 1x oversampling, filter off, nothing logged. -/
def reference_component : BME280Component Unit :=
  { bus := (), log := [], calibration_ := reference_calibration,
    temperature_oversampling_ := 1, pressure_oversampling_ := 1, humidity_oversampling_ := 1,
    iir_filter_ := 0, failed := false, warning := false, timeouts := [], pushed := [] }

/-- Register file of a device whose temperature channel is disabled: the
temperature block holds 0x80 0x00 0x00. -/
def mem_temperature_disabled (reg : Nat) : Option Nat :=
  if reg = 0xFA then some 0x80 else some 0

/-- Register file of a device in the state of the vendor's worked example:
pressure block 0x65 0x5A 0xC0 (raw value 415148), temperature block
0x7E 0xED 0x00 (raw value 519888), humidity word 0xFFFF; all other registers
read 0. -/
def mem_reference (reg : Nat) : Option Nat :=
  if reg = 0xF7 then some 0x65
  else if reg = 0xF8 then some 0x5A
  else if reg = 0xF9 then some 0xC0
  else if reg = 0xFA then some 0x7E
  else if reg = 0xFB then some 0xED
  else if reg = 0xFD then some 0xFF
  else if reg = 0xFE then some 0xFF
  else some 0

/-- Register file of a device with all three channels disabled: pressure and
temperature blocks 0x80 0x00 0x00, humidity word 0x8000. -/
def mem_all_disabled (reg : Nat) : Option Nat :=
  if reg = 0xF7 ∨ reg = 0xFA ∨ reg = 0xFD then some 0x80 else some 0

/-- The device's packing of the two 12-bit humidity coefficients into the
registers 0xE4, 0xE5, 0xE6, in the words of the specification: 0xE4 holds
`a >> 4`, 0xE5 holds `(a & 0xF) | ((b & 0xF) << 4)`, 0xE6 holds `b >> 4`. -/
def pack_h4_h5 (a b : Nat) : Nat × Nat × Nat :=
  (a >>> 4, (a &&& 0xF) ||| ((b &&& 0xF) <<< 4), b >>> 4)

/-- Register file of an operational device: chip id 0x60, the registers
0xE4..0xE6 packing `h4 = 0x123` and `h5 = 0x456`, every other register 0. -/
def mem_device (reg : Nat) : Option Nat :=
  if reg = 0xD0 then some 0x60
  else if reg = 0xE4 then some 0x12
  else if reg = 0xE5 then some 0x63
  else if reg = 0xE6 then some 0x45
  else some 0

/-- The component `c'` is reached from `c` by bus transfers that all satisfy
`good`: its log is the log of `c` followed by such transfers. -/
def LogAdds (good : BusOp → Prop) (c c' : BME280Component σ) : Prop :=
  ∃ L, c'.log = c.log ++ L ∧ ∀ op ∈ L, good op

/-- Register file of a device that answers the chip-id register with 0x61. -/
def mem_wrong_chip (reg : Nat) : Option Nat :=
  if reg = 0xD0 then some 0x61 else some 0

/-- Register file of a device with chip id 0x60 on which the transfer of the
calibration register 0x88 (`dig_T1`) fails; every other register reads 0. -/
def mem_t1_unreadable (reg : Nat) : Option Nat :=
  if reg = 0xD0 then some 0x60
  else if reg = 0x88 then none
  else some 0

/-- The bus of `memory_bus` on which every register write fails. -/
def memory_bus_write_fails (mem : Nat → Option Nat) : I2CBus Unit :=
  { read_byte := (memory_bus mem).read_byte,
    read_byte_16 := (memory_bus mem).read_byte_16,
    read_bytes := (memory_bus mem).read_bytes,
    write_byte := fun _ _ _ => (false, ()) }

/-- Register file of a device with a valid temperature block 0x7E 0xED 0x00
whose pressure and humidity channels are disabled (0x80 0x00 0x00 and
0x8000). -/
def mem_only_temperature (reg : Nat) : Option Nat :=
  if reg = 0xF7 then some 0x80
  else if reg = 0xFA then some 0x7E
  else if reg = 0xFB then some 0xED
  else if reg = 0xFD then some 0x80
  else some 0

/-- Register file of a device with a valid temperature block 0x7E 0xED 0x00 on
which the transfer of the pressure data register 0xF7 fails; the humidity word
is 0x6000. -/
def mem_pressure_unreadable (reg : Nat) : Option Nat :=
  if reg = 0xF7 then none
  else if reg = 0xFA then some 0x7E
  else if reg = 0xFB then some 0xED
  else if reg = 0xFD then some 0x60
  else some 0

/-- Register file of a device with a valid temperature and pressure block on
which the transfer of the humidity data register 0xFD fails. -/
def mem_humidity_unreadable (reg : Nat) : Option Nat :=
  if reg = 0xF7 then some 0x65
  else if reg = 0xF8 then some 0x5A
  else if reg = 0xF9 then some 0xC0
  else if reg = 0xFA then some 0x7E
  else if reg = 0xFB then some 0xED
  else if reg = 0xFD then none
  else some 0

/-- Register file of a device on which the transfer of the temperature data
register 0xFA fails. -/
def mem_temperature_unreadable (reg : Nat) : Option Nat :=
  if reg = 0xFA then none else some 0

/-- Register file of an operational device whose humidity-control and config
registers both hold 0xFF. -/
def mem_configured (reg : Nat) : Option Nat :=
  if reg = 0xD0 then some 0x60
  else if reg = 0xF2 ∨ reg = 0xF5 then some 0xFF
  else some 0

/-- A component configured with 16x humidity oversampling and the 16x
filter. -/
def configured_component : BME280Component Unit :=
  { reference_component with humidity_oversampling_ := 5, iir_filter_ := 4 }

/-- A component with all three channels at 4x oversampling (code 3). -/
def oversampled_component : BME280Component Unit :=
  { reference_component with
    temperature_oversampling_ := 3,
    pressure_oversampling_ := 3,
    humidity_oversampling_ := 3 }

/-- A component with 4x temperature, 2x pressure and 8x humidity oversampling
(codes 3, 2, 4). -/
def mixed_component : BME280Component Unit :=
  { reference_component with
    temperature_oversampling_ := 3,
    pressure_oversampling_ := 2,
    humidity_oversampling_ := 4 }

end sensor

/-! # MQTT cover component

Source: `src/esphomelib/cover/mqtt_cover_component.cpp`.  A `std::string` is
the list of its bytes; `c_str()` is the C string the bytes denote, which ends
at the first NUL byte. -/

namespace cover

/-- The calls the command handler makes on its `Cover` (`open()`, `close()`,
`stop()`). -/
inductive CoverCall where
  | open_
  | close
  | stop
  deriving DecidableEq

/-- The C `tolower` on a byte, in the "C" locale: only `A`..`Z` change. -/
def tolower (c : Nat) : Nat := if 0x41 ≤ c ∧ c ≤ 0x5A then c + 0x20 else c

/-- The C string read through `payload.c_str()`: the bytes before the first
NUL byte. -/
def c_str (s : List Nat) : List Nat := s.takeWhile (fun b => decide (b ≠ 0))

/-- The C `strcasecmp` on two C strings given without their terminating NUL:
the difference of the lower-cased bytes at the first position where they
differ, the terminator counting as 0. -/
def strcasecmp : List Nat → List Nat → Int
  | [], [] => 0
  | [], b :: _ => 0 - (tolower b : Int)
  | a :: _, [] => (tolower a : Int) - 0
  | a :: s1, b :: s2 =>
    if tolower a = tolower b then strcasecmp s1 s2 else (tolower a : Int) - (tolower b : Int)

/-- The literal "OPEN". -/
def OPEN : List Nat := [0x4F, 0x50, 0x45, 0x4E]
/-- The literal "CLOSE". -/
def CLOSE : List Nat := [0x43, 0x4C, 0x4F, 0x53, 0x45]
/-- The literal "STOP". -/
def STOP : List Nat := [0x53, 0x54, 0x4F, 0x50]

/-- Lines 30-43 of `MQTTCoverComponent::setup()`: the lambda subscribed to the
command topic; the result lists the calls made on the cover (an unknown
payload is only logged). -/
def command_callback (payload : List Nat) : List CoverCall :=
  if strcasecmp (c_str payload) OPEN = 0 then [CoverCall.open_]
  else if strcasecmp (c_str payload) CLOSE = 0 then [CoverCall.close]
  else if strcasecmp (c_str payload) STOP = 0 then [CoverCall.stop]
  else []

/-- Equality of two byte strings ignoring ASCII case, in the words of the
specification. -/
def eq_ignoring_case (a b : List Nat) : Prop := a.map tolower = b.map tolower

instance (a b : List Nat) : Decidable (eq_ignoring_case a b) := by
  unfold eq_ignoring_case; infer_instance

end cover

namespace sensor

variable {σ : Type}

/-! ## Auxiliary facts -/

theorem adc20_eq (d0 d1 d2 : Nat) :
    adc20 d0 d1 d2 = ((d0 % 256) * 65536 + (d1 % 256) * 256 + d2 % 256) / 16 := by
  have m0 : d0 &&& 0xFF = d0 % 256 := Nat.and_pow_two_sub_one_eq_mod d0 8
  have m1 : d1 &&& 0xFF = d1 % 256 := Nat.and_pow_two_sub_one_eq_mod d1 8
  have m2 : d2 &&& 0xFF = d2 % 256 := Nat.and_pow_two_sub_one_eq_mod d2 8
  have b0 : d0 % 256 < 256 := Nat.mod_lt _ (by decide)
  have b1 : d1 % 256 < 256 := Nat.mod_lt _ (by decide)
  have b2 : d2 % 256 < 256 := Nat.mod_lt _ (by decide)
  have e1 : ((d0 % 256) <<< 16) ||| ((d1 % 256) <<< 8)
      = 2 ^ 8 * (2 ^ 8 * (d0 % 256) + d1 % 256) := by
    have h := Nat.mul_add_lt_is_or (show (d1 % 256) * 2 ^ 8 < 2 ^ 16 by omega) (d0 % 256)
    rw [Nat.shiftLeft_eq, Nat.shiftLeft_eq, Nat.mul_comm (d0 % 256) (2 ^ 16), ← h]
    omega
  have e2 : 2 ^ 8 * (2 ^ 8 * (d0 % 256) + d1 % 256) ||| (d2 % 256)
      = 2 ^ 8 * (2 ^ 8 * (d0 % 256) + d1 % 256) + d2 % 256 :=
    (Nat.mul_add_lt_is_or (show d2 % 256 < 2 ^ 8 by omega) _).symm
  unfold adc20
  rw [m0, m1, m2, e1, e2, Nat.shiftRight_eq_div_pow]
  omega

/-- The raw value is the sentinel exactly for the byte pattern 0x80, 0x00, 0x0X. -/
theorem adc20_sentinel_iff (d0 d1 d2 : Nat) :
    adc20 d0 d1 d2 = 0x80000 ↔ d0 % 256 = 0x80 ∧ d1 % 256 = 0 ∧ d2 % 256 < 16 := by
  rw [adc20_eq]
  omega

theorem adc20_lt (d0 d1 d2 : Nat) : adc20 d0 d1 d2 < 1048576 := by
  rw [adc20_eq]
  omega

theorem humidity_clamp_bounds (v : Int) :
    0 ≤ humidity_clamp v ∧ humidity_clamp v ≤ 419430400 := by
  simp only [humidity_clamp]
  constructor <;> split_ifs <;> omega

theorem sar_eq_div (a : Int) (k : Nat) : sar a k = a / 2 ^ k := by
  unfold sar
  rw [Int.shiftRight_eq_div_pow]
  norm_cast

theorem humidity_scaled_bounds (cal : BME280CalibrationData) (t_fine adc : Int) :
    0 ≤ humidity_scaled cal t_fine adc ∧ humidity_scaled cal t_fine adc ≤ 102400 := by
  have h := humidity_clamp_bounds (humidity_unclamped cal t_fine adc)
  unfold humidity_scaled
  rw [sar_eq_div]
  norm_num
  omega

theorem wrap32_of_range (x : Int) (h1 : -2147483648 ≤ x) (h2 : x ≤ 2147483647) :
    wrap32 x = x := by
  unfold wrap32
  omega

/-! ## Verified properties -/

/-- C1: whenever the temperature block read of the completion callback fails,
or delivers bytes whose 24-bit value shifted right by 4 is 0x80000 (exactly
the byte patterns 0x80, 0x00, 0x0X), the callback ends without fault with the
warning status set, the list of pushed values unchanged, and the single bus
transfer of the cycle being the temperature block read: neither the pressure
nor the humidity data register is read.  This holds for every calibration,
every component state and every bus. -/
theorem C1_invalid_temperature_suppresses_cycle (bus : I2CBus σ) (c : BME280Component σ)
    (h : (read_bytes bus c BME280_REGISTER_TEMPDATA 3).1 = none ∨
      ∃ data, (read_bytes bus c BME280_REGISTER_TEMPDATA 3).1 = some data ∧
        adc20 (data.getD 0 0) (data.getD 1 0) (data.getD 2 0) = 0x80000) :
    ∃ c', Callback.run Callback.data bus c = .ok c' ∧
      c'.warning = true ∧
      c'.pushed = c.pushed ∧
      c'.log = c.log ++ [BusOp.read_bytes BME280_REGISTER_TEMPDATA 3
        (read_bytes bus c BME280_REGISTER_TEMPDATA 3).1] ∧
      (∀ op ∈ c'.log.drop c.log.length,
        op.reg ≠ BME280_REGISTER_PRESSUREDATA ∧ op.reg ≠ BME280_REGISTER_HUMIDDATA) ∧
      c'.calibration_ = c.calibration_ ∧ c'.failed = c.failed ∧ c'.timeouts = c.timeouts ∧
      (∀ d0 d1 d2 : Nat,
        adc20 d0 d1 d2 = 0x80000 ↔ d0 % 256 = 0x80 ∧ d1 % 256 = 0 ∧ d2 % 256 < 16) := by
  have hlog : (read_bytes bus c BME280_REGISTER_TEMPDATA 3).2.log
      = c.log ++ [BusOp.read_bytes BME280_REGISTER_TEMPDATA 3
        (read_bytes bus c BME280_REGISTER_TEMPDATA 3).1] := rfl
  have hnan : (read_temperature_ bus c 0).1 = Reading.nan ∧
      (read_temperature_ bus c 0).2.2 = (read_bytes bus c BME280_REGISTER_TEMPDATA 3).2 := by
    unfold read_temperature_
    rcases h with h | ⟨data, h, hs⟩
    · simp only [h]
      exact ⟨trivial, trivial⟩
    · simp only [h, hs, if_true]
      exact ⟨trivial, trivial⟩
  refine ⟨status_set_warning (read_bytes bus c BME280_REGISTER_TEMPDATA 3).2, ?_, rfl, rfl,
    hlog, ?_, rfl, rfl, rfl, adc20_sentinel_iff⟩
  · simp only [Callback.run, update_data_callback, hnan.1, hnan.2, Reading.isnan, if_true]
  · intro op hop
    have : (status_set_warning (read_bytes bus c BME280_REGISTER_TEMPDATA 3).2).log
        = c.log ++ [BusOp.read_bytes BME280_REGISTER_TEMPDATA 3
          (read_bytes bus c BME280_REGISTER_TEMPDATA 3).1] := rfl
    rw [this, List.drop_left] at hop
    simp only [List.mem_singleton] at hop
    subst hop
    simp [BusOp.reg, BME280_REGISTER_TEMPDATA, BME280_REGISTER_PRESSUREDATA,
      BME280_REGISTER_HUMIDDATA]

/-- Witness of C1 on a device whose temperature block holds 0x80 0x00 0x00. -/
theorem C1_invalid_temperature_suppresses_cycle_witness :
    ∃ c', Callback.run Callback.data (memory_bus mem_temperature_disabled) reference_component
        = .ok c' ∧
      c'.warning = true ∧
      c'.pushed = reference_component.pushed ∧
      c'.log = reference_component.log ++ [BusOp.read_bytes BME280_REGISTER_TEMPDATA 3
        (read_bytes (memory_bus mem_temperature_disabled) reference_component
          BME280_REGISTER_TEMPDATA 3).1] ∧
      (∀ op ∈ c'.log.drop reference_component.log.length,
        op.reg ≠ BME280_REGISTER_PRESSUREDATA ∧ op.reg ≠ BME280_REGISTER_HUMIDDATA) ∧
      c'.calibration_ = reference_component.calibration_ ∧
      c'.failed = reference_component.failed ∧ c'.timeouts = reference_component.timeouts ∧
      (∀ d0 d1 d2 : Nat,
        adc20 d0 d1 d2 = 0x80000 ↔ d0 % 256 = 0x80 ∧ d1 % 256 = 0 ∧ d2 % 256 < 16) :=
  C1_invalid_temperature_suppresses_cycle (memory_bus mem_temperature_disabled)
    reference_component (Or.inr ⟨[0x80, 0, 0], by decide, by decide⟩)

/-- C2: for every calibration, every `t_fine` and every raw humidity word
other than 0x8000 that is read successfully, the intermediate of
`read_humidity_` after the clamp lies in [0, 419430400], the integer obtained
by the shift by 12 lies in [0, 102400], and the returned humidity, that
integer divided by 1024, lies in [0, 100]; no assumption is made on the
unclamped intermediate. -/
theorem C2_humidity_within_physical_range (bus : I2CBus σ) (c : BME280Component σ)
    (t_fine : Int) (raw : Nat)
    (h : (read_byte_16 bus c BME280_REGISTER_HUMIDDATA).1 = some raw) (hne : raw ≠ 0x8000) :
    (0 ≤ humidity_clamp (humidity_unclamped c.calibration_ t_fine raw) ∧
      humidity_clamp (humidity_unclamped c.calibration_ t_fine raw) ≤ 419430400) ∧
    (0 ≤ humidity_scaled c.calibration_ t_fine raw ∧
      humidity_scaled c.calibration_ t_fine raw ≤ 102400) ∧
    ∃ q : ℚ, (read_humidity_ bus c t_fine).1 = Reading.val q ∧
      q = (humidity_scaled c.calibration_ t_fine raw : ℚ) / 1024 ∧ 0 ≤ q ∧ q ≤ 100 := by
  have hb := humidity_scaled_bounds c.calibration_ t_fine raw
  refine ⟨humidity_clamp_bounds _, hb, _, ?_, rfl, ?_, ?_⟩
  · unfold read_humidity_
    simp only [h, hne, if_false]
    rfl
  · have : (0 : ℚ) ≤ (humidity_scaled c.calibration_ t_fine raw : ℚ) := by exact_mod_cast hb.1
    exact div_nonneg this (by norm_num)
  · have : (humidity_scaled c.calibration_ t_fine raw : ℚ) ≤ 102400 := by exact_mod_cast hb.2
    rw [div_le_iff₀ (by norm_num)]
    linarith

/-- Witness of C2 at a saturated reading: the raw word 0xFFFF makes the
unclamped intermediate exceed 419430400. -/
theorem C2_humidity_within_physical_range_witness :
    (0 ≤ humidity_clamp (humidity_unclamped reference_component.calibration_ 128422 (65535 : Nat)) ∧
      humidity_clamp (humidity_unclamped reference_component.calibration_ 128422 (65535 : Nat))
        ≤ 419430400) ∧
    (0 ≤ humidity_scaled reference_component.calibration_ 128422 (65535 : Nat) ∧
      humidity_scaled reference_component.calibration_ 128422 (65535 : Nat) ≤ 102400) ∧
    ∃ q : ℚ, (read_humidity_ (memory_bus mem_reference) reference_component 128422).1
        = Reading.val q ∧
      q = (humidity_scaled reference_component.calibration_ 128422 (65535 : Nat) : ℚ) / 1024 ∧
      0 ≤ q ∧ q ≤ 100 :=
  C2_humidity_within_physical_range (memory_bus mem_reference) reference_component 128422 65535
    (by decide) (by decide)

/-- The unclamped humidity intermediate does leave [0, 419430400] in both
directions; the clamp then yields 100 % and 0 %. -/
theorem humidity_unclamped_leaves_range :
    humidity_unclamped reference_calibration 128422 65535 = 1057415488 ∧
    humidity_scaled reference_calibration 128422 65535 = 102400 ∧
    humidity_unclamped reference_calibration 128422 0 = -497293869 ∧
    humidity_scaled reference_calibration 128422 0 = 0 := by
  decide

/-- C3: when the temperature block is read successfully and its 20-bit raw
value `adc` is not 0x80000, `read_temperature_` stores through `t_fine` the
value `((((adc >> 3) - (t1 << 1)) * t2) >> 11) +
((((((adc >> 4) - t1) * ((adc >> 4) - t1)) >> 12) * t3) >> 14)` evaluated in
wrapping 32-bit signed arithmetic with arithmetic right shifts (`t1` unsigned
16-bit, `t2`, `t3` signed 16-bit) and returns `((t_fine * 5 + 128) >> 8) / 100`;
for the vendor's reference inputs `t1 = 27504`, `t2 = 26435`, `t3 = -1000`,
`adc = 519888` the formula gives `t_fine = 128422` and the integer 2508, that
is 25.08 degrees. -/
theorem C3_temperature_formula (bus : I2CBus σ) (c : BME280Component σ) (tf0 : Int)
    (data : List Nat) (adc t1 t2 t3 t_fine : Int)
    (h : (read_bytes bus c BME280_REGISTER_TEMPDATA 3).1 = some data)
    (hne : adc20 (data.getD 0 0) (data.getD 1 0) (data.getD 2 0) ≠ 0x80000)
    (hadc : adc = (adc20 (data.getD 0 0) (data.getD 1 0) (data.getD 2 0) : Nat))
    (h1 : t1 = c.calibration_.t1) (h2 : t2 = c.calibration_.t2) (h3 : t3 = c.calibration_.t3)
    (ht1 : 0 ≤ t1 ∧ t1 ≤ 65535) (ht2 : -32768 ≤ t2 ∧ t2 ≤ 32767)
    (ht3 : -32768 ≤ t3 ∧ t3 ≤ 32767)
    (htf : t_fine = wrap32
      ((wrap32 (wrap32 ((adc >>> (3 : Nat)) - wrap32 (t1 * 2 ^ 1)) * t2)) >>> (11 : Nat) +
       (wrap32 ((wrap32 (wrap32 ((adc >>> (4 : Nat)) - t1) * wrap32 ((adc >>> (4 : Nat)) - t1)))
          >>> (12 : Nat) * t3)) >>> (14 : Nat))) :
    (read_temperature_ bus c tf0).2.1 = t_fine ∧
    (read_temperature_ bus c tf0).1
      = Reading.val (((wrap32 (wrap32 (t_fine * 5) + 128)) >>> (8 : Nat) : Int) / 100) ∧
    temperature_t_fine reference_calibration 519888 = 128422 ∧
    temperature_centi 128422 = 2508 ∧
    ((2508 : Int) : ℚ) / 100 = 25.08 := by
  refine ⟨?_, ?_, by decide, by decide, by norm_num⟩
  all_goals
    subst h1 h2 h3
    have w1 : wrap32 c.calibration_.t1 = c.calibration_.t1 :=
      wrap32_of_range _ (by omega) (by omega)
    have w2 : wrap32 c.calibration_.t2 = c.calibration_.t2 :=
      wrap32_of_range _ (by omega) (by omega)
    have w3 : wrap32 c.calibration_.t3 = c.calibration_.t3 :=
      wrap32_of_range _ (by omega) (by omega)
    have hcal : (read_bytes bus c BME280_REGISTER_TEMPDATA 3).2.calibration_ = c.calibration_ :=
      rfl
    have key : temperature_t_fine c.calibration_
        ((adc20 (data.getD 0 0) (data.getD 1 0) (data.getD 2 0) : Nat) : Int) = t_fine := by
      subst hadc
      rw [htf]
      simp only [temperature_t_fine, w1, w2, w3, add32, sub32, mul32, shl32, sar]
    unfold read_temperature_
    simp only [h, hne, if_false, hcal, key]
  simp only [temperature_centi, add32, mul32, sar]

/-- Witness of C3: the temperature block 0x7E 0xED 0x00 (raw value 519888)
with the reference coefficients. -/
theorem C3_temperature_formula_witness :
    (read_temperature_ (memory_bus mem_reference) reference_component 0).2.1 = 128422 ∧
    (read_temperature_ (memory_bus mem_reference) reference_component 0).1
      = Reading.val (((wrap32 (wrap32 ((128422 : Int) * 5) + 128)) >>> (8 : Nat) : Int) / 100) ∧
    temperature_t_fine reference_calibration 519888 = 128422 ∧
    temperature_centi 128422 = 2508 ∧
    ((2508 : Int) : ℚ) / 100 = 25.08 :=
  C3_temperature_formula (memory_bus mem_reference) reference_component 0 [0x7E, 0xED, 0x00]
    519888 27504 26435 (-1000) 128422 (by decide) (by decide) (by decide) (by decide)
    (by decide) (by decide) (by decide) (by decide) (by decide) (by decide)

/-- C4: with the vendor's reference pressure coefficients, raw value 415148
and `t_fine = 128422`, the 64-bit integer stage of `read_pressure_` ends with
the fixed-point value 25767233, every arithmetic result of the computation
lies in the signed 64-bit range, and the returned value `p / 256 / 100`
(1006.5325...) is within 1e-2 of the reference 1006.53 hPa, `p / 256` being
within 1 Pa of 100653.27 Pa; the bound survives any rounding of the returned
value by up to 5e-3. -/
theorem C4_reference_pressure :
    (pressure_eval reference_calibration 128422 415148).p = .ok (some 25767233) ∧
    (∀ r ∈ (pressure_eval reference_calibration 128422 415148).raws, inRange64 r) ∧
    (read_pressure_ (memory_bus mem_reference) reference_component 128422).1
      = .ok (Reading.val ((25767233 : Int) / 256 / 100)) ∧
    |((25767233 : Int) : ℚ) / 256 / 100 - 1006.53| ≤ 1 / 100 ∧
    |((25767233 : Int) : ℚ) / 256 - 100653.27| ≤ 1 ∧
    (∀ x : ℚ, |x - ((25767233 : Int) : ℚ) / 256 / 100| ≤ 1 / 200 → |x - 1006.53| ≤ 1 / 100) := by
  refine ⟨by rfl, by decide, by rfl, ?_, ?_, ?_⟩
  · rw [abs_le]; constructor <;> norm_num
  · rw [abs_le]; constructor <;> norm_num
  · intro x hx
    rw [abs_le] at hx ⊢
    obtain ⟨h1, h2⟩ := hx
    norm_num at h1 h2 ⊢
    constructor <;> linarith


theorem pressure_eval_var1 (cal : BME280CalibrationData) (t_fine adc : Int) :
    (pressure_eval cal t_fine adc).var1 =
      sar (wrap64 (wrap64 (2 ^ 47 +
        wrap64 (sar (wrap64 (wrap64 (wrap64 (wrap32 t_fine - 128000) *
              wrap64 (wrap32 t_fine - 128000)) * wrap64 cal.p3)) 8 +
          wrap64 (wrap64 (wrap64 (wrap32 t_fine - 128000) * wrap64 cal.p2) * 2 ^ 12))) *
        wrap64 cal.p1)) 33 := by
  unfold pressure_eval
  simp only []
  split
  · rfl
  · rename_i h0
    simp only [div64, h0, if_false]

theorem pressure_eval_zero (cal : BME280CalibrationData) (t_fine adc : Int)
    (h : (pressure_eval cal t_fine adc).var1 = 0) :
    (pressure_eval cal t_fine adc).p = .ok none := by
  rw [pressure_eval_var1] at h
  unfold pressure_eval
  simp only [h, if_true]

theorem pressure_eval_nonzero (cal : BME280CalibrationData) (t_fine adc : Int)
    (h : (pressure_eval cal t_fine adc).var1 ≠ 0) :
    ∃ p, (pressure_eval cal t_fine adc).p = .ok (some p) := by
  rw [pressure_eval_var1] at h
  unfold pressure_eval
  simp only [h, if_false, div64]
  exact ⟨_, rfl⟩

theorem read_pressure_no_fault (bus : I2CBus σ) (c : BME280Component σ) (t_fine : Int)
    (f : Fault) : (read_pressure_ bus c t_fine).1 ≠ .error f := by
  unfold read_pressure_
  cases hr : (read_bytes bus c BME280_REGISTER_PRESSUREDATA 3).1 with
  | none => simp [hr]
  | some data =>
    simp only [hr]
    split_ifs with hs
    · simp
    · by_cases h0 : (pressure_eval (read_bytes bus c BME280_REGISTER_PRESSUREDATA 3).2.calibration_
          t_fine ((adc20 (data.getD 0 0) (data.getD 1 0) (data.getD 2 0) : Nat) : Int)).var1 = 0
      · rw [pressure_eval_zero _ _ _ h0]
        simp
      · obtain ⟨p, hp⟩ := pressure_eval_nonzero _ _ _ h0
        rw [hp]
        simp

theorem read_pressure_nan_of_zero (bus : I2CBus σ) (c : BME280Component σ) (t_fine adc : Int)
    (h : (pressure_eval c.calibration_ t_fine adc).var1 = 0) :
    (read_pressure_ bus c t_fine).1 = .ok Reading.nan := by
  have hcal : (read_bytes bus c BME280_REGISTER_PRESSUREDATA 3).2.calibration_ = c.calibration_ :=
    rfl
  unfold read_pressure_
  cases hr : (read_bytes bus c BME280_REGISTER_PRESSUREDATA 3).1 with
  | none => simp [hr]
  | some data =>
    simp only [hr]
    split_ifs with hs
    · simp
    · have h0 : (pressure_eval c.calibration_ t_fine
          ((adc20 (data.getD 0 0) (data.getD 1 0) (data.getD 2 0) : Nat) : Int)).var1 = 0 := by
        rw [pressure_eval_var1] at h ⊢
        exact h
      rw [hcal, pressure_eval_zero _ _ _ h0]

/-- C5: `read_pressure_` never divides by zero.  For every calibration, every
`t_fine` and every raw value the integer stage ends without a division fault;
the tested intermediate is
`var1 = ((2^47 + ((v*v*p3) >> 8) + ((v*p2) << 12)) * p1) >> 33` with
`v = t_fine - 128000` in wrapping 64-bit arithmetic; when it is zero the
function returns the invalid value and no division takes place, otherwise the
division by `var1` has a non-zero divisor and yields a result. -/
theorem C5_pressure_never_divides_by_zero (bus : I2CBus σ) (c : BME280Component σ)
    (t_fine adc : Int) :
    (∀ f, (pressure_eval c.calibration_ t_fine adc).p ≠ .error f) ∧
    (∀ f, (read_pressure_ bus c t_fine).1 ≠ .error f) ∧
    (pressure_eval c.calibration_ t_fine adc).var1 =
      sar (wrap64 (wrap64 (2 ^ 47 +
        wrap64 (sar (wrap64 (wrap64 (wrap64 (wrap32 t_fine - 128000) *
              wrap64 (wrap32 t_fine - 128000)) * wrap64 c.calibration_.p3)) 8 +
          wrap64 (wrap64 (wrap64 (wrap32 t_fine - 128000) * wrap64 c.calibration_.p2) * 2 ^ 12))) *
        wrap64 c.calibration_.p1)) 33 ∧
    (if (pressure_eval c.calibration_ t_fine adc).var1 = 0
      then (pressure_eval c.calibration_ t_fine adc).p = .ok none ∧
        (read_pressure_ bus c t_fine).1 = .ok Reading.nan
      else (∃ p, (pressure_eval c.calibration_ t_fine adc).p = .ok (some p)) ∧
        ∀ a, div64 a (pressure_eval c.calibration_ t_fine adc).var1
          = .ok (wrap64 (Int.tdiv a (pressure_eval c.calibration_ t_fine adc).var1))) := by
  refine ⟨?_, read_pressure_no_fault bus c t_fine, pressure_eval_var1 _ _ _, ?_⟩
  · intro f
    by_cases h0 : (pressure_eval c.calibration_ t_fine adc).var1 = 0
    · rw [pressure_eval_zero _ _ _ h0]
      simp
    · obtain ⟨p, hp⟩ := pressure_eval_nonzero _ _ _ h0
      rw [hp]
      simp
  · split_ifs with h0
    · exact ⟨pressure_eval_zero _ _ _ h0, read_pressure_nan_of_zero bus c t_fine adc h0⟩
    · exact ⟨pressure_eval_nonzero _ _ _ h0, fun a => by simp only [div64, h0, if_false]⟩

/-- The zero test of `read_pressure_` is reachable: with `p1 = 0` the divisor
is zero and the result is `NAN`. -/
theorem pressure_zero_divisor_example :
    (pressure_eval { reference_calibration with p1 := 0 } 128422 415148).var1 = 0 ∧
    (pressure_eval { reference_calibration with p1 := 0 } 128422 415148).p = .ok none ∧
    (read_pressure_ (memory_bus mem_reference)
      { reference_component with calibration_ := { reference_calibration with p1 := 0 } }
      128422).1 = .ok Reading.nan := by
  refine ⟨by decide, by rfl, by rfl⟩

theorem adc20_mod (d0 d1 d2 : Nat) :
    adc20 (d0 % 256) (d1 % 256) (d2 % 256) = adc20 d0 d1 d2 := by
  rw [adc20_eq, adc20_eq]
  simp only [Nat.mod_mod]

theorem read_bytes_three (bus : I2CBus σ) (c : BME280Component σ) (reg : Nat) (l : List Nat)
    (h : (bus.read_bytes c.bus reg 3).1 = some l) :
    (read_bytes bus c reg 3).1 = some [l.getD 0 0 % 256, l.getD 1 0 % 256, l.getD 2 0 % 256] := by
  unfold read_bytes
  simp only [h]
  rfl

/-- C6: when the pressure block read delivers the raw value 0x80000,
`read_pressure_` returns the invalid value, and when the humidity word read
delivers 0x8000, `read_humidity_` returns the invalid value; both hold for
every calibration and every `t_fine`, so the result depends on neither. -/
theorem C6_disabled_channels_yield_invalid (bus : I2CBus σ) (c1 c2 : BME280Component σ)
    (lp : List Nat) (w : Nat)
    (hp : (bus.read_bytes c1.bus BME280_REGISTER_PRESSUREDATA 3).1 = some lp)
    (hps : adc20 (lp.getD 0 0) (lp.getD 1 0) (lp.getD 2 0) = 0x80000)
    (hh : (bus.read_byte_16 c2.bus BME280_REGISTER_HUMIDDATA).1 = some w)
    (hhs : w % 65536 = 0x8000) :
    (∀ cal t_fine,
      (read_pressure_ bus { c1 with calibration_ := cal } t_fine).1 = .ok Reading.nan) ∧
    (∀ cal t_fine,
      (read_humidity_ bus { c2 with calibration_ := cal } t_fine).1 = Reading.nan) := by
  constructor
  · intro cal t_fine
    have hr := read_bytes_three bus { c1 with calibration_ := cal }
      BME280_REGISTER_PRESSUREDATA lp hp
    unfold read_pressure_
    simp only [hr]
    have hs : adc20 ([lp.getD 0 0 % 256, lp.getD 1 0 % 256, lp.getD 2 0 % 256].getD 0 0)
        ([lp.getD 0 0 % 256, lp.getD 1 0 % 256, lp.getD 2 0 % 256].getD 1 0)
        ([lp.getD 0 0 % 256, lp.getD 1 0 % 256, lp.getD 2 0 % 256].getD 2 0) = 0x80000 := by
      show adc20 (lp.getD 0 0 % 256) (lp.getD 1 0 % 256) (lp.getD 2 0 % 256) = 0x80000
      rw [adc20_mod]
      exact hps
    simp only [hs, if_true]
  · intro cal t_fine
    have hr : (read_byte_16 bus { c2 with calibration_ := cal } BME280_REGISTER_HUMIDDATA).1
        = some 0x8000 := by
      unfold read_byte_16
      simp only [hh, Option.map_some']
      rw [hhs]
    unfold read_humidity_
    simp only [hr, if_true]

/-- Witness of C6 on a device with all channels disabled. -/
theorem C6_disabled_channels_yield_invalid_witness :
    (∀ cal t_fine,
      (read_pressure_ (memory_bus mem_all_disabled)
        { reference_component with calibration_ := cal } t_fine).1 = .ok Reading.nan) ∧
    (∀ cal t_fine,
      (read_humidity_ (memory_bus mem_all_disabled)
        { reference_component with calibration_ := cal } t_fine).1 = Reading.nan) :=
  C6_disabled_channels_yield_invalid (memory_bus mem_all_disabled) reference_component
    reference_component [0x80, 0, 0] 0x8000 (by decide) (by decide) (by decide) (by decide)

theorem wrap16_of_range (x : Int) (h1 : -32768 ≤ x) (h2 : x ≤ 32767) : wrap16 x = x := by
  unfold wrap16
  omega

theorem unpack_h4_eq (e4 e5 : Nat) (h : e4 < 256) :
    unpack_h4 e4 e5 = ((16 * e4 + e5 % 16 : Nat) : Int) := by
  have m : e5 &&& 0x0F = e5 % 16 := Nat.and_pow_two_sub_one_eq_mod e5 4
  have hor : (e4 <<< 4) ||| (e5 &&& 0x0F) = 16 * e4 + e5 % 16 := by
    rw [m, Nat.shiftLeft_eq, Nat.mul_comm e4 (2 ^ 4)]
    exact (Nat.mul_add_lt_is_or (show e5 % 16 < 2 ^ 4 by omega) e4).symm
  unfold unpack_h4
  rw [hor]
  apply wrap16_of_range <;> omega

theorem unpack_h5_eq (e5 e6 : Nat) (h5 : e5 < 256) (h6 : e6 < 256) :
    unpack_h5 e5 e6 = ((16 * e6 + e5 / 16 : Nat) : Int) := by
  have hor : (e6 <<< 4) ||| (e5 >>> 4) = 16 * e6 + e5 / 16 := by
    rw [Nat.shiftRight_eq_div_pow, Nat.shiftLeft_eq, Nat.mul_comm e6 (2 ^ 4)]
    exact (Nat.mul_add_lt_is_or (show e5 / 2 ^ 4 < 2 ^ 4 by omega) e6).symm
  unfold unpack_h5
  rw [hor]
  apply wrap16_of_range <;> omega

theorem pack_h4_h5_eq (a b : Nat) :
    pack_h4_h5 a b = (a / 16, a % 16 + 16 * (b % 16), b / 16) := by
  have ma : a &&& 0xF = a % 16 := Nat.and_pow_two_sub_one_eq_mod a 4
  have mb : b &&& 0xF = b % 16 := Nat.and_pow_two_sub_one_eq_mod b 4
  have hor : (a &&& 0xF) ||| ((b &&& 0xF) <<< 4) = a % 16 + 16 * (b % 16) := by
    rw [ma, mb, Nat.shiftLeft_eq, Nat.mul_comm (b % 16) (2 ^ 4), Nat.lor_comm,
      ← Nat.mul_add_lt_is_or (show a % 16 < 2 ^ 4 by omega) (b % 16)]
    omega
  unfold pack_h4_h5
  rw [hor, Nat.shiftRight_eq_div_pow, Nat.shiftRight_eq_div_pow]

/-- Unpacking inverts packing on 12-bit values. -/
theorem unpack_pack (a b : Nat) (ha : a ≤ 4095) (hb : b ≤ 4095) :
    unpack_h4 (pack_h4_h5 a b).1 (pack_h4_h5 a b).2.1 = a ∧
    unpack_h5 (pack_h4_h5 a b).2.1 (pack_h4_h5 a b).2.2 = b := by
  rw [pack_h4_h5_eq]
  simp only []
  rw [unpack_h4_eq _ _ (by omega), unpack_h5_eq _ _ (by omega) (by omega)]
  constructor <;> norm_cast <;> omega

/-- Packing inverts unpacking on bytes. -/
theorem pack_unpack (e4 e5 e6 : Nat) (h4 : e4 < 256) (h5 : e5 < 256) (h6 : e6 < 256) :
    pack_h4_h5 (unpack_h4 e4 e5).toNat (unpack_h5 e5 e6).toNat = (e4, e5, e6) := by
  rw [unpack_h4_eq _ _ h4, unpack_h5_eq _ _ h5 h6, pack_h4_h5_eq]
  simp only [Int.toNat_ofNat, Prod.mk.injEq]
  omega

theorem write_configuration_calibration (bus : I2CBus σ) (c : BME280Component σ) :
    (write_configuration bus c).calibration_ = c.calibration_ := by
  unfold write_configuration
  simp only []
  repeat' split
  all_goals rfl

theorem setup_of_chip_ok (bus : I2CBus σ) (c : BME280Component σ)
    (h : (read_byte bus c BME280_REGISTER_CHIPID).1 = some 0x60) :
    setup bus c = write_configuration bus
      (read_calibration bus (read_byte bus c BME280_REGISTER_CHIPID).2) := by
  unfold setup
  simp only [h]
  simp

theorem setup_of_chip_bad (bus : I2CBus σ) (c : BME280Component σ)
    (h : (read_byte bus c BME280_REGISTER_CHIPID).1 ≠ some 0x60) :
    setup bus c = mark_failed (read_byte bus c BME280_REGISTER_CHIPID).2 := by
  unfold setup
  cases hr : (read_byte bus c BME280_REGISTER_CHIPID).1 with
  | none => simp only [hr]
  | some v =>
    have hv : v ≠ 0x60 := fun e => h (by rw [hr, e])
    simp only [hr, hv]
    simp only [ne_eq, ite_not]
    rw [if_neg hv]

theorem read_u8_of_holds (bus : I2CBus σ) (c : BME280Component σ) (reg v : Nat)
    (h : ∀ s, (bus.read_byte s reg).1 = some v) : (read_u8 bus c reg).1 = v % 256 := by
  unfold read_u8 read_byte
  simp only [h]
  rfl

/-- C7: the unpacking of `h4` and `h5` in `setup()` inverts the device's
packing.  If the chip id is accepted and the registers 0xE4, 0xE5, 0xE6 hold
`a >> 4`, `(a & 0xF) | ((b & 0xF) << 4)`, `b >> 4` for 12-bit values `a`, `b`,
then `setup()` stores `h4 = a` and `h5 = b`; and for every triple of bytes,
packing the unpacked `h4`, `h5` gives the three bytes back. -/
theorem C7_humidity_coefficient_unpacking (bus : I2CBus σ) (c : BME280Component σ) (a b : Nat)
    (ha : a ≤ 4095) (hb : b ≤ 4095)
    (hid : (read_byte bus c BME280_REGISTER_CHIPID).1 = some 0x60)
    (h4 : ∀ s, (bus.read_byte s 0xE4).1 = some (a >>> 4))
    (h5 : ∀ s, (bus.read_byte s 0xE5).1 = some ((a &&& 0xF) ||| ((b &&& 0xF) <<< 4)))
    (h6 : ∀ s, (bus.read_byte s 0xE6).1 = some (b >>> 4)) :
    (setup bus c).calibration_.h4 = a ∧ (setup bus c).calibration_.h5 = b ∧
    (pack_h4_h5 a b = (a >>> 4, (a &&& 0xF) ||| ((b &&& 0xF) <<< 4), b >>> 4) ∧
      unpack_h4 (pack_h4_h5 a b).1 (pack_h4_h5 a b).2.1 = a ∧
      unpack_h5 (pack_h4_h5 a b).2.1 (pack_h4_h5 a b).2.2 = b) ∧
    (∀ e4 e5 e6 : Nat,
      pack_h4_h5 (unpack_h4 (e4 % 256) (e5 % 256)).toNat (unpack_h5 (e5 % 256) (e6 % 256)).toNat
        = (e4 % 256, e5 % 256, e6 % 256)) := by
  have hup := unpack_pack a b ha hb
  have hpk := pack_h4_h5_eq a b
  have e4 : ∀ c', (read_u8 bus c' BME280_REGISTER_DIG_H4).1 = (pack_h4_h5 a b).1 := by
    intro c'
    rw [read_u8_of_holds bus c' BME280_REGISTER_DIG_H4 _ h4, hpk, Nat.shiftRight_eq_div_pow]
    simp only []
    omega
  have e5 : ∀ c', (read_u8 bus c' BME280_REGISTER_DIG_H5).1 = (pack_h4_h5 a b).2.1 := by
    intro c'
    rw [read_u8_of_holds bus c' BME280_REGISTER_DIG_H5 _ h5]
    show (pack_h4_h5 a b).2.1 % 256 = _
    rw [hpk]
    simp only []
    omega
  have e5' : ∀ c', (read_u8 bus c' (BME280_REGISTER_DIG_H4 + 1)).1 = (pack_h4_h5 a b).2.1 := e5
  have e6 : ∀ c', (read_u8 bus c' (BME280_REGISTER_DIG_H5 + 1)).1 = (pack_h4_h5 a b).2.2 := by
    intro c'
    rw [read_u8_of_holds bus c' (BME280_REGISTER_DIG_H5 + 1) _ h6, hpk, Nat.shiftRight_eq_div_pow]
    simp only []
    omega
  refine ⟨?_, ?_, ⟨rfl, hup.1, hup.2⟩, ?_⟩
  · rw [setup_of_chip_ok bus c hid, write_configuration_calibration]
    show unpack_h4 (read_u8 bus _ BME280_REGISTER_DIG_H4).1
      (read_u8 bus _ (BME280_REGISTER_DIG_H4 + 1)).1 = a
    rw [e4, e5']
    exact hup.1
  · rw [setup_of_chip_ok bus c hid, write_configuration_calibration]
    show unpack_h5 (read_u8 bus _ BME280_REGISTER_DIG_H5).1
      (read_u8 bus _ (BME280_REGISTER_DIG_H5 + 1)).1 = b
    rw [e5, e6]
    exact hup.2
  · intro e4 e5 e6
    exact pack_unpack _ _ _ (Nat.mod_lt _ (by decide)) (Nat.mod_lt _ (by decide))
      (Nat.mod_lt _ (by decide))

/-- Witness of C7: the registers 0x12, 0x63, 0x45 unpack to 0x123 and 0x456. -/
theorem C7_humidity_coefficient_unpacking_witness :
    (setup (memory_bus mem_device) reference_component).calibration_.h4 = (0x123 : Nat) ∧
    (setup (memory_bus mem_device) reference_component).calibration_.h5 = (0x456 : Nat) ∧
    (pack_h4_h5 0x123 0x456
        = (0x123 >>> 4, (0x123 &&& 0xF) ||| ((0x456 &&& 0xF) <<< 4), 0x456 >>> 4) ∧
      unpack_h4 (pack_h4_h5 0x123 0x456).1 (pack_h4_h5 0x123 0x456).2.1 = (0x123 : Nat) ∧
      unpack_h5 (pack_h4_h5 0x123 0x456).2.1 (pack_h4_h5 0x123 0x456).2.2 = (0x456 : Nat)) ∧
    (∀ e4 e5 e6 : Nat,
      pack_h4_h5 (unpack_h4 (e4 % 256) (e5 % 256)).toNat (unpack_h5 (e5 % 256) (e6 % 256)).toNat
        = (e4 % 256, e5 % 256, e6 % 256)) :=
  C7_humidity_coefficient_unpacking (memory_bus mem_device) reference_component 0x123 0x456
    (by decide) (by decide) (by decide) (fun _ => rfl) (fun _ => rfl) (fun _ => rfl)

theorem LogAdds.refl (good : BusOp → Prop) (c : BME280Component σ) : LogAdds good c c :=
  ⟨[], by simp, by simp⟩

theorem LogAdds.snoc {good : BusOp → Prop} {c x y : BME280Component σ} (op : BusOp)
    (h : LogAdds good c x) (hy : y.log = x.log ++ [op]) (hg : good op) : LogAdds good c y := by
  obtain ⟨L, hL, hgood⟩ := h
  refine ⟨L ++ [op], by rw [hy, hL, List.append_assoc], ?_⟩
  intro o ho
  rcases List.mem_append.1 ho with h1 | h1
  · exact hgood o h1
  · rw [List.mem_singleton.1 h1]
    exact hg

theorem LogAdds.load_u8 {good : BusOp → Prop} {c x : BME280Component σ} (bus : I2CBus σ)
    (reg : Nat) (set : BME280CalibrationData → Int → BME280CalibrationData)
    (hg : ∀ res, good (BusOp.read_byte reg res)) (h : LogAdds good c x) :
    LogAdds good c (load_u8 bus reg set x) :=
  h.snoc _ rfl (hg _)

theorem LogAdds.load_u16 {good : BusOp → Prop} {c x : BME280Component σ} (bus : I2CBus σ)
    (reg : Nat) (set : BME280CalibrationData → Int → BME280CalibrationData)
    (hg : ∀ res, good (BusOp.read_byte_16 reg res)) (h : LogAdds good c x) :
    LogAdds good c (load_u16 bus reg set x) :=
  h.snoc _ rfl (hg _)

theorem LogAdds.load_s16 {good : BusOp → Prop} {c x : BME280Component σ} (bus : I2CBus σ)
    (reg : Nat) (set : BME280CalibrationData → Int → BME280CalibrationData)
    (hg : ∀ res, good (BusOp.read_byte_16 reg res)) (h : LogAdds good c x) :
    LogAdds good c (load_s16 bus reg set x) :=
  h.snoc _ rfl (hg _)

theorem LogAdds.load_h4 {good : BusOp → Prop} {c x : BME280Component σ} (bus : I2CBus σ)
    (hg : ∀ res, good (BusOp.read_byte BME280_REGISTER_DIG_H4 res))
    (hg' : ∀ res, good (BusOp.read_byte (BME280_REGISTER_DIG_H4 + 1) res))
    (h : LogAdds good c x) : LogAdds good c (load_h4 bus x) :=
  have h1 : LogAdds good c (read_u8 bus x BME280_REGISTER_DIG_H4).2 := h.snoc _ rfl (hg _)
  h1.snoc _ rfl (hg' _)

theorem LogAdds.load_h5 {good : BusOp → Prop} {c x : BME280Component σ} (bus : I2CBus σ)
    (hg : ∀ res, good (BusOp.read_byte (BME280_REGISTER_DIG_H5 + 1) res))
    (hg' : ∀ res, good (BusOp.read_byte BME280_REGISTER_DIG_H5 res))
    (h : LogAdds good c x) : LogAdds good c (load_h5 bus x) :=
  have h1 : LogAdds good c (read_u8 bus x (BME280_REGISTER_DIG_H5 + 1)).2 :=
    h.snoc _ rfl (hg _)
  h1.snoc _ rfl (hg' _)

/-- The calibration reads are reads of registers below 0xF0. -/
theorem read_calibration_log (bus : I2CBus σ) (c : BME280Component σ) :
    LogAdds (fun op => op.isWrite = false ∧ op.reg < 0xF0) c (read_calibration bus c) := by
  have g8 : ∀ reg, reg < 0xF0 → ∀ res,
      (BusOp.read_byte reg res).isWrite = false ∧ (BusOp.read_byte reg res).reg < 0xF0 :=
    fun _ h _ => ⟨rfl, h⟩
  have g16 : ∀ reg, reg < 0xF0 → ∀ res,
      (BusOp.read_byte_16 reg res).isWrite = false ∧ (BusOp.read_byte_16 reg res).reg < 0xF0 :=
    fun _ h _ => ⟨rfl, h⟩
  unfold read_calibration
  exact
    LogAdds.load_u8 bus _ _ (g8 _ (by decide)) <|
    LogAdds.load_h5 bus (g8 _ (by decide)) (g8 _ (by decide)) <|
    LogAdds.load_h4 bus (g8 _ (by decide)) (g8 _ (by decide)) <|
    LogAdds.load_u8 bus _ _ (g8 _ (by decide)) <|
    LogAdds.load_s16 bus _ _ (g16 _ (by decide)) <|
    LogAdds.load_u8 bus _ _ (g8 _ (by decide)) <|
    LogAdds.load_s16 bus _ _ (g16 _ (by decide)) <|
    LogAdds.load_s16 bus _ _ (g16 _ (by decide)) <|
    LogAdds.load_s16 bus _ _ (g16 _ (by decide)) <|
    LogAdds.load_s16 bus _ _ (g16 _ (by decide)) <|
    LogAdds.load_s16 bus _ _ (g16 _ (by decide)) <|
    LogAdds.load_s16 bus _ _ (g16 _ (by decide)) <|
    LogAdds.load_s16 bus _ _ (g16 _ (by decide)) <|
    LogAdds.load_s16 bus _ _ (g16 _ (by decide)) <|
    LogAdds.load_u16 bus _ _ (g16 _ (by decide)) <|
    LogAdds.load_s16 bus _ _ (g16 _ (by decide)) <|
    LogAdds.load_s16 bus _ _ (g16 _ (by decide)) <|
    LogAdds.load_u16 bus _ _ (g16 _ (by decide)) <|
    LogAdds.refl _ c

theorem write_configuration_log (bus : I2CBus σ) (c : BME280Component σ) :
    ∃ W, (write_configuration bus c).log = c.log ++ W ∧
      (∀ op ∈ W, op.reg = BME280_REGISTER_CONTROLHUMID ∨ op.reg = BME280_REGISTER_CONFIG) ∧
      ((write_configuration bus c).failed = true ↔
        c.failed = true ∨ ∃ op ∈ W, op.ok = false) := by
  unfold write_configuration
  simp only []
  cases h1 : (read_byte bus c BME280_REGISTER_CONTROLHUMID).1 with
  | none =>
    refine ⟨[BusOp.read_byte BME280_REGISTER_CONTROLHUMID none], ?_, ?_, ?_⟩
    · simp only [read_byte, mark_failed] at h1 ⊢
      rw [h1]
    · simp [BusOp.reg]
    · simp [mark_failed, BusOp.ok]
  | some v1 =>
    simp only []
    cases h2 : (write_byte bus (read_byte bus c BME280_REGISTER_CONTROLHUMID).2
        BME280_REGISTER_CONTROLHUMID (humid_register_value v1
          (read_byte bus c BME280_REGISTER_CONTROLHUMID).2.humidity_oversampling_)).1 with
    | false =>
      simp only [if_true]
      refine ⟨[BusOp.read_byte BME280_REGISTER_CONTROLHUMID (some v1),
        BusOp.write_byte BME280_REGISTER_CONTROLHUMID (humid_register_value v1
          c.humidity_oversampling_) false], ?_, ?_, ?_⟩
      · simp only [read_byte, write_byte, mark_failed] at h1 h2 ⊢
        rw [h1, h2]
        simp
      · simp [BusOp.reg]
      · simp [mark_failed, BusOp.ok]
    | true =>
      simp only [Bool.true_eq_false, if_false]
      cases h3 : (read_byte bus (write_byte bus (read_byte bus c BME280_REGISTER_CONTROLHUMID).2
          BME280_REGISTER_CONTROLHUMID (humid_register_value v1
            (read_byte bus c BME280_REGISTER_CONTROLHUMID).2.humidity_oversampling_)).2
          BME280_REGISTER_CONFIG).1 with
      | none =>
        refine ⟨[BusOp.read_byte BME280_REGISTER_CONTROLHUMID (some v1),
          BusOp.write_byte BME280_REGISTER_CONTROLHUMID (humid_register_value v1
            c.humidity_oversampling_) true,
          BusOp.read_byte BME280_REGISTER_CONFIG none], ?_, ?_, ?_⟩
        · simp only [read_byte, write_byte, mark_failed] at h1 h2 h3 ⊢
          rw [h1, h2, h3]
          simp
        · simp [BusOp.reg]
        · simp [mark_failed, BusOp.ok]
      | some v2 =>
        simp only []
        cases h4 : (write_byte bus (read_byte bus (write_byte bus
            (read_byte bus c BME280_REGISTER_CONTROLHUMID).2
            BME280_REGISTER_CONTROLHUMID (humid_register_value v1
              (read_byte bus c BME280_REGISTER_CONTROLHUMID).2.humidity_oversampling_)).2
            BME280_REGISTER_CONFIG).2 BME280_REGISTER_CONFIG
            (config_register_value v2 (read_byte bus (write_byte bus
              (read_byte bus c BME280_REGISTER_CONTROLHUMID).2
              BME280_REGISTER_CONTROLHUMID (humid_register_value v1
                (read_byte bus c BME280_REGISTER_CONTROLHUMID).2.humidity_oversampling_)).2
              BME280_REGISTER_CONFIG).2.iir_filter_)).1 with
        | false =>
          simp only [if_true]
          refine ⟨[BusOp.read_byte BME280_REGISTER_CONTROLHUMID (some v1),
            BusOp.write_byte BME280_REGISTER_CONTROLHUMID (humid_register_value v1
              c.humidity_oversampling_) true,
            BusOp.read_byte BME280_REGISTER_CONFIG (some v2),
            BusOp.write_byte BME280_REGISTER_CONFIG (config_register_value v2 c.iir_filter_)
              false], ?_, ?_, ?_⟩
          · simp only [read_byte, write_byte, mark_failed] at h1 h2 h3 h4 ⊢
            rw [h1, h2, h3, h4]
            simp
          · simp [BusOp.reg]
          · simp [mark_failed, BusOp.ok]
        | true =>
          simp only [Bool.true_eq_false, if_false]
          refine ⟨[BusOp.read_byte BME280_REGISTER_CONTROLHUMID (some v1),
            BusOp.write_byte BME280_REGISTER_CONTROLHUMID (humid_register_value v1
              c.humidity_oversampling_) true,
            BusOp.read_byte BME280_REGISTER_CONFIG (some v2),
            BusOp.write_byte BME280_REGISTER_CONFIG (config_register_value v2 c.iir_filter_)
              true], ?_, ?_, ?_⟩
          · simp only [read_byte, write_byte, mark_failed] at h1 h2 h3 h4 ⊢
            rw [h1, h2, h3, h4]
            simp
          · simp [BusOp.reg]
          · simp [BusOp.ok, read_byte, write_byte]

/-- When the chip id is accepted, `setup()` ends with the device marked failed
exactly when it was already marked, or one of the transfers on the
humidity-control or config register failed. -/
theorem setup_failed_iff (bus : I2CBus σ) (c : BME280Component σ)
    (hid : (read_byte bus c BME280_REGISTER_CHIPID).1 = some 0x60) :
    (setup bus c).failed = true ↔
      c.failed = true ∨ ∃ op ∈ (setup bus c).log.drop c.log.length,
        (op.reg = BME280_REGISTER_CONTROLHUMID ∨ op.reg = BME280_REGISTER_CONFIG) ∧
          op.ok = false := by
  rw [setup_of_chip_ok bus c hid]
  obtain ⟨L, hL, hLg⟩ := read_calibration_log bus (read_byte bus c BME280_REGISTER_CHIPID).2
  obtain ⟨W, hW, hWr, hWf⟩ := write_configuration_log bus
    (read_calibration bus (read_byte bus c BME280_REGISTER_CHIPID).2)
  have hc1 : (read_byte bus c BME280_REGISTER_CHIPID).2.log
      = c.log ++ [BusOp.read_byte BME280_REGISTER_CHIPID
        (read_byte bus c BME280_REGISTER_CHIPID).1] := rfl
  have hlog : (write_configuration bus
      (read_calibration bus (read_byte bus c BME280_REGISTER_CHIPID).2)).log
      = c.log ++ ([BusOp.read_byte BME280_REGISTER_CHIPID
        (read_byte bus c BME280_REGISTER_CHIPID).1] ++ L ++ W) := by
    rw [hW, hL, hc1]
    simp only [List.append_assoc]
  have hf : (read_calibration bus (read_byte bus c BME280_REGISTER_CHIPID).2).failed
      = c.failed := rfl
  rw [hlog, List.drop_left, hWf, hf]
  constructor
  · rintro (h | ⟨op, hop, hok⟩)
    · exact Or.inl h
    · exact Or.inr ⟨op, List.mem_append_right _ hop, hWr op hop, hok⟩
  · rintro (h | ⟨op, hop, hreg, hok⟩)
    · exact Or.inl h
    · rcases List.mem_append.1 hop with h1 | h1
      · exfalso
        rcases List.mem_append.1 h1 with h2 | h2
        · rw [List.mem_singleton.1 h2] at hreg
          revert hreg
          simp [BusOp.reg, BME280_REGISTER_CHIPID, BME280_REGISTER_CONTROLHUMID,
            BME280_REGISTER_CONFIG]
        · have := (hLg op h2).2
          revert this
          rcases hreg with e | e <;> rw [e] <;>
            simp [BME280_REGISTER_CONTROLHUMID, BME280_REGISTER_CONFIG]
      · exact Or.inr ⟨op, h1, hok⟩

/-- C8: the chip-id gate of `setup()`.  Whenever the chip-id read fails or
delivers a byte other than 0x60, `setup()` marks the device failed and the
chip-id read is its only bus transfer: no calibration register is read, no
register is written, the calibration store is unchanged.  When the byte is
0x60 and every transfer `setup()` makes on the humidity-control and config
registers succeeds, `setup()` leaves the failed mark as it found it. -/
theorem C8_chip_id_gate (bus : I2CBus σ) (c : BME280Component σ) :
    ((read_byte bus c BME280_REGISTER_CHIPID).1 ≠ some 0x60 →
      (setup bus c).failed = true ∧
      (setup bus c).log = c.log ++ [BusOp.read_byte BME280_REGISTER_CHIPID
        (read_byte bus c BME280_REGISTER_CHIPID).1] ∧
      (∀ op ∈ (setup bus c).log.drop c.log.length,
        op.isWrite = false ∧ op.reg = BME280_REGISTER_CHIPID) ∧
      (setup bus c).calibration_ = c.calibration_) ∧
    ((read_byte bus c BME280_REGISTER_CHIPID).1 = some 0x60 →
      (∀ op ∈ (setup bus c).log.drop c.log.length,
        (op.reg = BME280_REGISTER_CONTROLHUMID ∨ op.reg = BME280_REGISTER_CONFIG) →
          op.ok = true) →
      (setup bus c).failed = c.failed) := by
  constructor
  · intro h
    rw [setup_of_chip_bad bus c h]
    have hlog : (mark_failed (read_byte bus c BME280_REGISTER_CHIPID).2).log
        = c.log ++ [BusOp.read_byte BME280_REGISTER_CHIPID
          (read_byte bus c BME280_REGISTER_CHIPID).1] := rfl
    refine ⟨rfl, hlog, ?_, rfl⟩
    intro op hop
    rw [hlog, List.drop_left, List.mem_singleton] at hop
    rw [hop]
    exact ⟨rfl, rfl⟩
  · intro hid hok
    have hiff := setup_failed_iff bus c hid
    cases hf : (setup bus c).failed with
    | false =>
      cases hc : c.failed with
      | false => rfl
      | true => exact absurd (hiff.2 (Or.inl hc)) (by simp [hf])
    | true =>
      rcases hiff.1 hf with h | ⟨op, hop, hreg, hbad⟩
      · exact h.symm
      · have := hok op hop hreg
        rw [hbad] at this
        exact absurd this (by decide)

/-- Witness of C8: a device answering chip id 0x61, and an operational
device. -/
theorem C8_chip_id_gate_witness :
    ((setup (memory_bus mem_wrong_chip) reference_component).failed = true ∧
      (setup (memory_bus mem_wrong_chip) reference_component).log
        = reference_component.log ++ [BusOp.read_byte BME280_REGISTER_CHIPID
          (read_byte (memory_bus mem_wrong_chip) reference_component
            BME280_REGISTER_CHIPID).1] ∧
      (∀ op ∈ (setup (memory_bus mem_wrong_chip) reference_component).log.drop
          reference_component.log.length,
        op.isWrite = false ∧ op.reg = BME280_REGISTER_CHIPID) ∧
      (setup (memory_bus mem_wrong_chip) reference_component).calibration_
        = reference_component.calibration_) ∧
    (setup (memory_bus mem_device) reference_component).failed = reference_component.failed :=
  ⟨(C8_chip_id_gate (memory_bus mem_wrong_chip) reference_component).1 (by decide),
   (C8_chip_id_gate (memory_bus mem_device) reference_component).2 (by decide) (by decide)⟩

/-- The effect of `update()` in every state: one write of the
measurement-control register; a warning when it fails, one armed callback
when it succeeds.  The failed mark is neither read nor changed. -/
theorem update_effect (bus : I2CBus σ) (c : BME280Component σ) :
    ∃ ok : Bool,
      (update bus c).log = c.log ++ [BusOp.write_byte BME280_REGISTER_CONTROL
        (meas_register_value c.temperature_oversampling_ c.pressure_oversampling_) ok] ∧
      (update bus c).timeouts =
        (if ok = true then c.timeouts ++ [Timeout.mk "data"
            (meas_delay c.temperature_oversampling_ c.pressure_oversampling_
              c.humidity_oversampling_) Callback.data]
          else c.timeouts) ∧
      (update bus c).failed = c.failed ∧
      (update bus c).pushed = c.pushed ∧
      (update bus c).calibration_ = c.calibration_ := by
  refine ⟨(write_byte bus c BME280_REGISTER_CONTROL
    (meas_register_value c.temperature_oversampling_ c.pressure_oversampling_)).1, ?_⟩
  unfold update
  simp only []
  cases h : (write_byte bus c BME280_REGISTER_CONTROL
    (meas_register_value c.temperature_oversampling_ c.pressure_oversampling_)).1 with
  | false =>
    simp only [if_true]
    exact ⟨by simp only [status_set_warning, write_byte] at h ⊢; rw [h],
      by simp [status_set_warning, write_byte], rfl, rfl, rfl⟩
  | true =>
    simp only [Bool.true_eq_false, if_false]
    exact ⟨by simp only [set_timeout, write_byte] at h ⊢; rw [h],
      by simp [set_timeout, write_byte], rfl, rfl, rfl⟩

/-- C9, counterexample: on a device answering chip id 0x61, `setup()` marks
the component failed, yet the following `update()` writes 0x25 to the
measurement-control register and arms the "data" callback with a delay of
14 ms; it is not a no-op. -/
theorem C9_update_after_failed_setup_not_noop :
    (read_byte (memory_bus mem_wrong_chip) reference_component BME280_REGISTER_CHIPID).1
      = some 0x61 ∧
    (setup (memory_bus mem_wrong_chip) reference_component).failed = true ∧
    (update (memory_bus mem_wrong_chip)
        (setup (memory_bus mem_wrong_chip) reference_component)).log
      = (setup (memory_bus mem_wrong_chip) reference_component).log ++
        [BusOp.write_byte BME280_REGISTER_CONTROL 0x25 true] ∧
    (update (memory_bus mem_wrong_chip)
        (setup (memory_bus mem_wrong_chip) reference_component)).timeouts
      = [Timeout.mk "data" 14 Callback.data] ∧
    ¬ ((update (memory_bus mem_wrong_chip)
          (setup (memory_bus mem_wrong_chip) reference_component)).log
        = (setup (memory_bus mem_wrong_chip) reference_component).log ∧
      (update (memory_bus mem_wrong_chip)
          (setup (memory_bus mem_wrong_chip) reference_component)).timeouts
        = (setup (memory_bus mem_wrong_chip) reference_component).timeouts) := by
  refine ⟨by decide, by decide, by decide, by rfl, by decide⟩

/-- C9, amended: after a `setup()` that rejected the chip id the component is
marked failed and `update()` leaves the mark in place, but `update()` has no
failed-state guard: it makes exactly one bus transfer, the write of the
measurement-control register, and arms the "data" callback exactly when that
write succeeds. -/
theorem C9_update_has_no_failed_guard (bus : I2CBus σ) (c : BME280Component σ)
    (h : (read_byte bus c BME280_REGISTER_CHIPID).1 ≠ some 0x60) :
    (setup bus c).failed = true ∧
    (update bus (setup bus c)).failed = true ∧
    ∃ ok : Bool,
      (update bus (setup bus c)).log = (setup bus c).log ++
        [BusOp.write_byte BME280_REGISTER_CONTROL
          (meas_register_value c.temperature_oversampling_ c.pressure_oversampling_) ok] ∧
      (update bus (setup bus c)).timeouts =
        (if ok = true then (setup bus c).timeouts ++ [Timeout.mk "data"
            (meas_delay c.temperature_oversampling_ c.pressure_oversampling_
              c.humidity_oversampling_) Callback.data]
          else (setup bus c).timeouts) := by
  have hs := setup_of_chip_bad bus c h
  have hf : (setup bus c).failed = true := by rw [hs]; rfl
  have ht : (setup bus c).temperature_oversampling_ = c.temperature_oversampling_ := by
    rw [hs]; rfl
  have hp : (setup bus c).pressure_oversampling_ = c.pressure_oversampling_ := by
    rw [hs]; rfl
  have hh : (setup bus c).humidity_oversampling_ = c.humidity_oversampling_ := by
    rw [hs]; rfl
  obtain ⟨ok, h1, h2, h3, _, _⟩ := update_effect bus (setup bus c)
  rw [ht, hp] at h1
  rw [ht, hp, hh] at h2
  exact ⟨hf, by rw [h3, hf], ok, h1, h2⟩

/-- Witness of the amended C9 on a device answering chip id 0x61. -/
theorem C9_update_has_no_failed_guard_witness :
    (setup (memory_bus mem_wrong_chip) reference_component).failed = true ∧
    (update (memory_bus mem_wrong_chip)
      (setup (memory_bus mem_wrong_chip) reference_component)).failed = true ∧
    ∃ ok : Bool,
      (update (memory_bus mem_wrong_chip)
          (setup (memory_bus mem_wrong_chip) reference_component)).log
        = (setup (memory_bus mem_wrong_chip) reference_component).log ++
          [BusOp.write_byte BME280_REGISTER_CONTROL
            (meas_register_value reference_component.temperature_oversampling_
              reference_component.pressure_oversampling_) ok] ∧
      (update (memory_bus mem_wrong_chip)
          (setup (memory_bus mem_wrong_chip) reference_component)).timeouts =
        (if ok = true then (setup (memory_bus mem_wrong_chip) reference_component).timeouts ++
            [Timeout.mk "data"
              (meas_delay reference_component.temperature_oversampling_
                 reference_component.pressure_oversampling_
                 reference_component.humidity_oversampling_) Callback.data]
          else (setup (memory_bus mem_wrong_chip) reference_component).timeouts) :=
  C9_update_has_no_failed_guard (memory_bus mem_wrong_chip) reference_component (by decide)

/-- C10, counterexample: on a device with chip id 0x60 whose `dig_T1` read
fails, `setup()` records the failed transfer, stores `t1 = 0` and does not
mark the component failed. -/
theorem C10_failed_calibration_read_not_escalated :
    (read_byte (memory_bus mem_t1_unreadable) reference_component BME280_REGISTER_CHIPID).1
      = some 0x60 ∧
    BusOp.read_byte_16 BME280_REGISTER_DIG_T1 none
      ∈ (setup (memory_bus mem_t1_unreadable) reference_component).log ∧
    (setup (memory_bus mem_t1_unreadable) reference_component).failed = false ∧
    (setup (memory_bus mem_t1_unreadable) reference_component).calibration_.t1 = 0 := by
  refine ⟨by decide, by decide, by decide, by decide⟩

/-- C10, amended: once the chip id is accepted, `setup()` ends with the
component marked failed exactly when it was already marked or a transfer on
the humidity-control or config register failed; failed calibration reads play
no part: `read_u8`, `read_u16_le` and `read_s16_le` ignore the transfer result
and yield 0, from which the coefficient is stored. -/
theorem C10_setup_escalation (bus : I2CBus σ) (c : BME280Component σ)
    (hid : (read_byte bus c BME280_REGISTER_CHIPID).1 = some 0x60) :
    ((setup bus c).failed = true ↔
      c.failed = true ∨ ∃ op ∈ (setup bus c).log.drop c.log.length,
        (op.reg = BME280_REGISTER_CONTROLHUMID ∨ op.reg = BME280_REGISTER_CONFIG) ∧
          op.ok = false) ∧
    (∀ (c' : BME280Component σ) (reg : Nat),
      ((read_byte bus c' reg).1 = none → (read_u8 bus c' reg).1 = 0) ∧
      ((read_byte_16 bus c' reg).1 = none →
        (read_u16_le bus c' reg).1 = 0 ∧ (read_s16_le bus c' reg).1 = 0)) := by
  refine ⟨setup_failed_iff bus c hid, ?_⟩
  intro c' reg
  constructor
  · intro h
    simp only [read_u8, h]
    rfl
  · intro h
    simp only [read_s16_le, read_u16_le, h]
    exact ⟨rfl, rfl⟩

/-- Witness of the amended C10 on a device whose `dig_T1` read fails. -/
theorem C10_setup_escalation_witness :
    ((setup (memory_bus mem_t1_unreadable) reference_component).failed = true ↔
      reference_component.failed = true ∨
        ∃ op ∈ (setup (memory_bus mem_t1_unreadable) reference_component).log.drop
            reference_component.log.length,
          (op.reg = BME280_REGISTER_CONTROLHUMID ∨ op.reg = BME280_REGISTER_CONFIG) ∧
            op.ok = false) ∧
    (∀ (c' : BME280Component Unit) (reg : Nat),
      ((read_byte (memory_bus mem_t1_unreadable) c' reg).1 = none →
        (read_u8 (memory_bus mem_t1_unreadable) c' reg).1 = 0) ∧
      ((read_byte_16 (memory_bus mem_t1_unreadable) c' reg).1 = none →
        (read_u16_le (memory_bus mem_t1_unreadable) c' reg).1 = 0 ∧
          (read_s16_le (memory_bus mem_t1_unreadable) c' reg).1 = 0)) :=
  C10_setup_escalation (memory_bus mem_t1_unreadable) reference_component (by decide)

theorem meas_delay_eq (t p h : Nat) :
    meas_delay t p h = f32_ceil_u32 (f32_mul (meas_time t p h) f32_1_5) := rfl

/-- On the six oversampling settings the delay computed in single precision
is the integer `(138 * (nT + nP + nH) + 168) / 40`. -/
theorem meas_delay_closed_form :
    ∀ t < 6, ∀ p < 6, ∀ h < 6,
      meas_delay t p h
        = (138 * (oversampling_to_time t + oversampling_to_time p + oversampling_to_time h)
            + 168) / 40 := by
  decide

/-- The ceiling of the vendor formula scaled by 1.5, as an integer division. -/
theorem vendor_delay_ceil (a b c : Nat) :
    ⌈(3 / 2 : ℚ) * (1 + 23 / 10 * a + (23 / 10 * b + 575 / 1000) + (23 / 10 * c + 575 / 1000))⌉₊
      = (138 * (a + b + c) + 168) / 40 := by
  have h1 := Nat.div_add_mod (138 * (a + b + c) + 168) 40
  have h2 := Nat.mod_lt (138 * (a + b + c) + 168) (show 40 > 0 by norm_num)
  generalize (138 * (a + b + c) + 168) / 40 = k at *
  generalize (138 * (a + b + c) + 168) % 40 = r at *
  have hk : 1 ≤ k := by omega
  rw [Nat.ceil_eq_iff (by omega)]
  have hq : (40 * k + r : ℚ) = 138 * (a + b + c) + 168 := by exact_mod_cast h1
  have hr : (r : ℚ) ≤ 39 := by exact_mod_cast (show r ≤ 39 by omega)
  have hr0 : (0 : ℚ) ≤ r := Nat.cast_nonneg r
  constructor
  · rw [Nat.cast_sub hk]
    push_cast
    linarith
  · linarith

theorem oversampling_to_time_values :
    oversampling_to_time 0 = 0 ∧ oversampling_to_time 1 = 1 ∧ oversampling_to_time 2 = 2 ∧
    oversampling_to_time 3 = 4 ∧ oversampling_to_time 4 = 8 ∧ oversampling_to_time 5 = 16 := by
  decide

theorem oversampling_to_time_mono :
    ∀ a < 6, ∀ b < 6, a ≤ b → oversampling_to_time a ≤ oversampling_to_time b := by
  decide


theorem update_of_write_ok (bus : I2CBus σ) (c : BME280Component σ)
    (hw : (write_byte bus c BME280_REGISTER_CONTROL
      (meas_register_value c.temperature_oversampling_ c.pressure_oversampling_)).1 = true) :
    update bus c = set_timeout (write_byte bus c BME280_REGISTER_CONTROL
        (meas_register_value c.temperature_oversampling_ c.pressure_oversampling_)).2 "data"
      (meas_delay c.temperature_oversampling_ c.pressure_oversampling_
        c.humidity_oversampling_) Callback.data := by
  unfold update
  simp only [hw, Bool.true_eq_false, if_false]
  rfl

theorem update_of_write_failed (bus : I2CBus σ) (c : BME280Component σ)
    (hw : (write_byte bus c BME280_REGISTER_CONTROL
      (meas_register_value c.temperature_oversampling_ c.pressure_oversampling_)).1 = false) :
    update bus c = status_set_warning (write_byte bus c BME280_REGISTER_CONTROL
        (meas_register_value c.temperature_oversampling_ c.pressure_oversampling_)).2 := by
  unfold update
  simp only [hw, if_true]

/-- C11: when the write of the measurement-control register succeeds,
`update()` arms exactly one deferred callback, "data", whose delay is
`ceil(1.5 * (1 + 2.3*nT + (2.3*nP + 0.575) + (2.3*nH + 0.575)))`, where `nT`,
`nP`, `nH` are the sample counts of the temperature, pressure and humidity
oversampling settings (code 0 has 0 samples, 1 has 1, 2 has 2, 3 has 4, 4 has
8, 5 has 16), the delay of the code being computed in single precision; at
1x/1x/1x the wait before scaling is 9.05 ms (the single-precision value
differs from it by less than 1e-6) and the armed delay is 14 ms. -/
theorem C11_update_arms_one_callback (bus : I2CBus σ) (c : BME280Component σ)
    (nT nP nH : Nat)
    (hT : (c.temperature_oversampling_, nT) ∈ [(0, 0), (1, 1), (2, 2), (3, 4), (4, 8), (5, 16)])
    (hP : (c.pressure_oversampling_, nP) ∈ [(0, 0), (1, 1), (2, 2), (3, 4), (4, 8), (5, 16)])
    (hH : (c.humidity_oversampling_, nH) ∈ [(0, 0), (1, 1), (2, 2), (3, 4), (4, 8), (5, 16)])
    (hw : (write_byte bus c BME280_REGISTER_CONTROL
      (meas_register_value c.temperature_oversampling_ c.pressure_oversampling_)).1 = true) :
    (update bus c).timeouts = c.timeouts ++ [Timeout.mk "data"
      ⌈(3 / 2 : ℚ) * (1 + 23 / 10 * (nT : ℚ) + (23 / 10 * (nP : ℚ) + 575 / 1000)
          + (23 / 10 * (nH : ℚ) + 575 / 1000))⌉₊ Callback.data] ∧
    (update bus c).timeouts.length = c.timeouts.length + 1 ∧
    (oversampling_to_time c.temperature_oversampling_ = nT ∧
      oversampling_to_time c.pressure_oversampling_ = nP ∧
      oversampling_to_time c.humidity_oversampling_ = nH) ∧
    (((1 : ℚ) + 23 / 10 * 1 + (23 / 10 * 1 + 575 / 1000) + (23 / 10 * 1 + 575 / 1000) = 9.05) ∧
      |((meas_time 1 1 1 : Nat) : ℚ) / 2 ^ 40 - 9.05| ≤ 1 / 1000000 ∧
      ⌈(3 / 2 : ℚ) * 9.05⌉₊ = 14 ∧
      meas_delay 1 1 1 = 14) := by
  have htab : ∀ code n : Nat, (code, n) ∈ [(0, 0), (1, 1), (2, 2), (3, 4), (4, 8), (5, 16)] →
      code ≤ 5 ∧ oversampling_to_time code = n := by
    intro code n h
    simp only [List.mem_cons, Prod.mk.injEq, List.mem_singleton, List.not_mem_nil,
      or_false] at h
    rcases h with ⟨rfl, rfl⟩ | ⟨rfl, rfl⟩ | ⟨rfl, rfl⟩ | ⟨rfl, rfl⟩ | ⟨rfl, rfl⟩ | ⟨rfl, rfl⟩ <;>
      decide
  obtain ⟨ht, eT⟩ := htab _ _ hT
  obtain ⟨hp, eP⟩ := htab _ _ hP
  obtain ⟨hh, eH⟩ := htab _ _ hH
  have hmt : meas_time 1 1 1 = 9950580441088 := by decide
  have hd : meas_delay c.temperature_oversampling_ c.pressure_oversampling_
      c.humidity_oversampling_
      = ⌈(3 / 2 : ℚ) * (1 + 23 / 10 * (nT : ℚ) + (23 / 10 * (nP : ℚ) + 575 / 1000)
          + (23 / 10 * (nH : ℚ) + 575 / 1000))⌉₊ := by
    rw [vendor_delay_ceil, ← eT, ← eP, ← eH]
    exact meas_delay_closed_form _ (by omega) _ (by omega) _ (by omega)
  have h14 : ⌈(3 / 2 : ℚ) * 9.05⌉₊ = 14 := by
    have e : (3 / 2 : ℚ) * 9.05
        = (3 / 2 : ℚ) * (1 + 23 / 10 * ((1 : Nat) : ℚ) + (23 / 10 * ((1 : Nat) : ℚ) + 575 / 1000)
          + (23 / 10 * ((1 : Nat) : ℚ) + 575 / 1000)) := by norm_num
    rw [e, vendor_delay_ceil]
  have hu : update bus c = set_timeout (write_byte bus c BME280_REGISTER_CONTROL
        (meas_register_value c.temperature_oversampling_ c.pressure_oversampling_)).2 "data"
      (meas_delay c.temperature_oversampling_ c.pressure_oversampling_
        c.humidity_oversampling_) Callback.data := by
    unfold update
    simp only [hw, Bool.true_eq_false, if_false]
    rfl
  refine ⟨?_, ?_, ⟨eT, eP, eH⟩, ?_, ?_, h14, by decide⟩
  · rw [hu, hd]
    rfl
  · rw [hu]
    simp [set_timeout, write_byte]
  · norm_num
  · rw [hmt, abs_le]
    constructor <;> norm_num

/-- Witness of C11: 4x/2x/8x oversampling on an operational device, where the
armed delay is 52 ms. -/
theorem C11_update_arms_one_callback_witness :
    (update (memory_bus mem_device) mixed_component).timeouts
      = [Timeout.mk "data" 52 Callback.data] ∧
    ((update (memory_bus mem_device) mixed_component).timeouts
      = mixed_component.timeouts ++ [Timeout.mk "data"
        ⌈(3 / 2 : ℚ) * (1 + 23 / 10 * ((4 : Nat) : ℚ) + (23 / 10 * ((2 : Nat) : ℚ) + 575 / 1000)
            + (23 / 10 * ((8 : Nat) : ℚ) + 575 / 1000))⌉₊ Callback.data] ∧
    (update (memory_bus mem_device) mixed_component).timeouts.length
      = mixed_component.timeouts.length + 1 ∧
    (oversampling_to_time mixed_component.temperature_oversampling_ = 4 ∧
      oversampling_to_time mixed_component.pressure_oversampling_ = 2 ∧
      oversampling_to_time mixed_component.humidity_oversampling_ = 8) ∧
    (((1 : ℚ) + 23 / 10 * 1 + (23 / 10 * 1 + 575 / 1000) + (23 / 10 * 1 + 575 / 1000) = 9.05) ∧
      |((meas_time 1 1 1 : Nat) : ℚ) / 2 ^ 40 - 9.05| ≤ 1 / 1000000 ∧
      ⌈(3 / 2 : ℚ) * 9.05⌉₊ = 14 ∧
      meas_delay 1 1 1 = 14)) :=
  ⟨by rfl,
   C11_update_arms_one_callback (memory_bus mem_device) mixed_component 4 2 8
    (by decide) (by decide) (by decide) (by decide)⟩

/-- At 16x/16x/16x on an operational device `update()` arms a delay of
169 ms, at 4x/2x/8x one of 52 ms. -/
theorem update_delay_examples :
    (update (memory_bus mem_device)
      { reference_component with
        temperature_oversampling_ := 5,
        pressure_oversampling_ := 5,
        humidity_oversampling_ := 5 }).timeouts.map Timeout.delay = [169] ∧
    (update (memory_bus mem_device)
      { reference_component with
        temperature_oversampling_ := 3,
        pressure_oversampling_ := 2,
        humidity_oversampling_ := 4 }).timeouts.map Timeout.delay = [52] := by
  decide

/-- C12: if the write of the measurement-control register in `update()`
fails, `update()` sets the warning status, arms no callback, makes no other
bus transfer and pushes no value; the failed mark is untouched, and the next
`update()` issues the same write again. -/
theorem C12_failed_control_write (bus : I2CBus σ) (c : BME280Component σ)
    (hw : (write_byte bus c BME280_REGISTER_CONTROL
      (meas_register_value c.temperature_oversampling_ c.pressure_oversampling_)).1 = false) :
    (update bus c).warning = true ∧
    (update bus c).timeouts = c.timeouts ∧
    (update bus c).log = c.log ++ [BusOp.write_byte BME280_REGISTER_CONTROL
      (meas_register_value c.temperature_oversampling_ c.pressure_oversampling_) false] ∧
    (update bus c).pushed = c.pushed ∧
    (update bus c).failed = c.failed ∧
    ∃ ok : Bool, (update bus (update bus c)).log = (update bus c).log ++
      [BusOp.write_byte BME280_REGISTER_CONTROL
        (meas_register_value c.temperature_oversampling_ c.pressure_oversampling_) ok] := by
  have hu := update_of_write_failed bus c hw
  have hlog : (update bus c).log = c.log ++ [BusOp.write_byte BME280_REGISTER_CONTROL
      (meas_register_value c.temperature_oversampling_ c.pressure_oversampling_) false] := by
    rw [hu]
    simp only [status_set_warning, write_byte] at hw ⊢
    rw [hw]
  have ht : (update bus c).temperature_oversampling_ = c.temperature_oversampling_ := by
    rw [hu]; rfl
  have hp : (update bus c).pressure_oversampling_ = c.pressure_oversampling_ := by
    rw [hu]; rfl
  refine ⟨by rw [hu]; rfl, by rw [hu]; rfl, hlog, by rw [hu]; rfl, by rw [hu]; rfl, ?_⟩
  obtain ⟨ok, h1, _⟩ := update_effect bus (update bus c)
  rw [ht, hp] at h1
  exact ⟨ok, h1⟩

/-- Witness of C12 on a device that rejects every write. -/
theorem C12_failed_control_write_witness :
    (update (memory_bus_write_fails mem_device) reference_component).warning = true ∧
    (update (memory_bus_write_fails mem_device) reference_component).timeouts
      = reference_component.timeouts ∧
    (update (memory_bus_write_fails mem_device) reference_component).log
      = reference_component.log ++ [BusOp.write_byte BME280_REGISTER_CONTROL
        (meas_register_value reference_component.temperature_oversampling_
          reference_component.pressure_oversampling_) false] ∧
    (update (memory_bus_write_fails mem_device) reference_component).pushed
      = reference_component.pushed ∧
    (update (memory_bus_write_fails mem_device) reference_component).failed
      = reference_component.failed ∧
    ∃ ok : Bool,
      (update (memory_bus_write_fails mem_device)
        (update (memory_bus_write_fails mem_device) reference_component)).log
      = (update (memory_bus_write_fails mem_device) reference_component).log ++
        [BusOp.write_byte BME280_REGISTER_CONTROL
          (meas_register_value reference_component.temperature_oversampling_
            reference_component.pressure_oversampling_) ok] :=
  C12_failed_control_write (memory_bus_write_fails mem_device) reference_component (by decide)

theorem read_temperature_state (bus : I2CBus σ) (c : BME280Component σ) (t : Int) :
    (read_temperature_ bus c t).2.2 = (read_bytes bus c BME280_REGISTER_TEMPDATA 3).2 := by
  unfold read_temperature_
  simp only []
  split
  · rfl
  · split <;> rfl

theorem read_pressure_state (bus : I2CBus σ) (c : BME280Component σ) (t : Int) :
    (read_pressure_ bus c t).2 = (read_bytes bus c BME280_REGISTER_PRESSUREDATA 3).2 := by
  unfold read_pressure_
  simp only []
  split
  · rfl
  · split
    · rfl
    · split <;> rfl

theorem read_humidity_state (bus : I2CBus σ) (c : BME280Component σ) (t : Int) :
    (read_humidity_ bus c t).2 = (read_byte_16 bus c BME280_REGISTER_HUMIDDATA).2 := by
  unfold read_humidity_
  simp only []
  split
  · rfl
  · split <;> rfl

/-- The callback when the temperature is invalid: warning set, nothing else. -/
theorem callback_of_invalid_temperature (bus : I2CBus σ) (c : BME280Component σ)
    (h : (read_temperature_ bus c 0).1.isnan = true) :
    update_data_callback bus c
      = .ok (status_set_warning (read_bytes bus c BME280_REGISTER_TEMPDATA 3).2) := by
  unfold update_data_callback
  simp only [h, if_true, read_temperature_state]

/-- The callback when the temperature is valid: both other channels are read
and three values are pushed, then the warning is cleared. -/
theorem callback_of_valid_temperature (bus : I2CBus σ) (c : BME280Component σ)
    (h : (read_temperature_ bus c 0).1.isnan = false) :
    ∃ P, (read_pressure_ bus (read_temperature_ bus c 0).2.2 (read_temperature_ bus c 0).2.1).1
        = .ok P ∧
      update_data_callback bus c = .ok (status_clear_warning
        (push_new_value (push_new_value (push_new_value
          (read_humidity_ bus
            (read_pressure_ bus (read_temperature_ bus c 0).2.2
              (read_temperature_ bus c 0).2.1).2 (read_temperature_ bus c 0).2.1).2
          Channel.temperature (read_temperature_ bus c 0).1)
          Channel.pressure P)
          Channel.humidity
          (read_humidity_ bus
            (read_pressure_ bus (read_temperature_ bus c 0).2.2
              (read_temperature_ bus c 0).2.1).2 (read_temperature_ bus c 0).2.1).1)) := by
  cases hp : (read_pressure_ bus (read_temperature_ bus c 0).2.2
      (read_temperature_ bus c 0).2.1).1 with
  | error f => exact absurd hp (read_pressure_no_fault _ _ _ f)
  | ok P =>
    refine ⟨P, rfl, ?_⟩
    unfold update_data_callback
    simp only [h, Bool.false_eq_true, if_false, hp]

/-- C13: in every cycle whose temperature read yields a valid value the
completion callback ends without fault having pushed exactly three values, the
temperature, then the pressure, then the humidity, each being whatever the
corresponding read function returned (the invalid value included), and the
warning status is clear on return. -/
theorem C13_valid_cycle_pushes_three_values (bus : I2CBus σ) (c : BME280Component σ)
    (h : (read_temperature_ bus c 0).1.isnan = false) :
    ∃ c' P H, Callback.run Callback.data bus c = .ok c' ∧
      (read_pressure_ bus (read_temperature_ bus c 0).2.2 (read_temperature_ bus c 0).2.1).1
        = .ok P ∧
      (read_humidity_ bus
        (read_pressure_ bus (read_temperature_ bus c 0).2.2 (read_temperature_ bus c 0).2.1).2
        (read_temperature_ bus c 0).2.1).1 = H ∧
      c'.pushed = c.pushed ++ [(Channel.temperature, (read_temperature_ bus c 0).1),
        (Channel.pressure, P), (Channel.humidity, H)] ∧
      c'.warning = false := by
  obtain ⟨P, hP, hcb⟩ := callback_of_valid_temperature bus c h
  refine ⟨_, P, _, hcb, hP, rfl, ?_, rfl⟩
  simp only [status_clear_warning, push_new_value, read_humidity_state, read_pressure_state,
    read_temperature_state, read_bytes, read_byte_16, List.append_assoc]
  rfl

/-- Witness of C13 on a device whose pressure and humidity channels are
disabled. -/
theorem C13_valid_cycle_pushes_three_values_witness :
    ∃ c' P H, Callback.run Callback.data (memory_bus mem_only_temperature) reference_component
        = .ok c' ∧
      (read_pressure_ (memory_bus mem_only_temperature)
        (read_temperature_ (memory_bus mem_only_temperature) reference_component 0).2.2
        (read_temperature_ (memory_bus mem_only_temperature) reference_component 0).2.1).1
        = .ok P ∧
      (read_humidity_ (memory_bus mem_only_temperature)
        (read_pressure_ (memory_bus mem_only_temperature)
          (read_temperature_ (memory_bus mem_only_temperature) reference_component 0).2.2
          (read_temperature_ (memory_bus mem_only_temperature) reference_component 0).2.1).2
        (read_temperature_ (memory_bus mem_only_temperature) reference_component 0).2.1).1 = H ∧
      c'.pushed = reference_component.pushed ++
        [(Channel.temperature,
          (read_temperature_ (memory_bus mem_only_temperature) reference_component 0).1),
        (Channel.pressure, P), (Channel.humidity, H)] ∧
      c'.warning = false :=
  C13_valid_cycle_pushes_three_values (memory_bus mem_only_temperature) reference_component
    (by decide)

/-- With a valid temperature and both other channels disabled the callback
pushes the temperature followed by two invalid values. -/
theorem callback_pushes_invalid_values :
    ∃ c', Callback.run Callback.data (memory_bus mem_only_temperature) reference_component
        = .ok c' ∧
      c'.pushed = [(Channel.temperature, Reading.val ((2508 : Int) / 100)),
        (Channel.pressure, Reading.nan), (Channel.humidity, Reading.nan)] ∧
      c'.warning = false :=
  ⟨_, rfl, rfl, rfl⟩

/-- C14, counterexample: with a valid temperature block, a failed pressure
block read (first device) or a failed humidity register read (second device)
does not abort the cycle: the callback pushes three values, the failed
channel as the invalid value, and clears the warning status that was set. -/
theorem C14_failed_data_read_still_pushes :
    (∃ c', Callback.run Callback.data (memory_bus mem_pressure_unreadable)
          { reference_component with warning := true } = .ok c' ∧
        c'.log = [BusOp.read_bytes BME280_REGISTER_TEMPDATA 3 (some [0x7E, 0xED, 0x00]),
          BusOp.read_bytes BME280_REGISTER_PRESSUREDATA 3 none,
          BusOp.read_byte_16 BME280_REGISTER_HUMIDDATA (some 0x6000)] ∧
        c'.pushed = [(Channel.temperature, Reading.val ((2508 : Int) / 100)),
          (Channel.pressure, Reading.nan),
          (Channel.humidity, Reading.val ((25847 : Int) / 1024))] ∧
        c'.warning = false) ∧
    (∃ c', Callback.run Callback.data (memory_bus mem_humidity_unreadable)
          { reference_component with warning := true } = .ok c' ∧
        c'.log = [BusOp.read_bytes BME280_REGISTER_TEMPDATA 3 (some [0x7E, 0xED, 0x00]),
          BusOp.read_bytes BME280_REGISTER_PRESSUREDATA 3 (some [0x65, 0x5A, 0xC0]),
          BusOp.read_byte_16 BME280_REGISTER_HUMIDDATA none] ∧
        c'.pushed = [(Channel.temperature, Reading.val ((2508 : Int) / 100)),
          (Channel.pressure, Reading.val ((25767233 : Int) / 256 / 100)),
          (Channel.humidity, Reading.nan)] ∧
        c'.warning = false) :=
  ⟨⟨_, rfl, rfl, rfl, rfl⟩, ⟨_, rfl, rfl, rfl, rfl⟩⟩

theorem read_pressure_of_failed_read (bus : I2CBus σ) (c : BME280Component σ) (t : Int)
    (h : (read_bytes bus c BME280_REGISTER_PRESSUREDATA 3).1 = none) :
    (read_pressure_ bus c t).1 = .ok Reading.nan := by
  unfold read_pressure_
  simp only [h]

theorem read_humidity_of_failed_read (bus : I2CBus σ) (c : BME280Component σ) (t : Int)
    (h : (read_byte_16 bus c BME280_REGISTER_HUMIDDATA).1 = none) :
    (read_humidity_ bus c t).1 = Reading.nan := by
  unfold read_humidity_
  simp only [h]

theorem read_temperature_of_failed_read (bus : I2CBus σ) (c : BME280Component σ) (t : Int)
    (h : (read_bytes bus c BME280_REGISTER_TEMPDATA 3).1 = none) :
    (read_temperature_ bus c t).1 = Reading.nan := by
  unfold read_temperature_
  simp only [h]

/-- C14, amended: a failed write of the control register leaves the warning
set with no value pushed and no callback armed; a failed temperature block
read leaves the warning set with no value pushed; but with a valid temperature
the cycle is never aborted: three values are pushed and the warning is
cleared, a failed pressure block read or humidity register read only turning
the value of its channel into the invalid value. -/
theorem C14_transport_failures_in_a_cycle (bus : I2CBus σ) (c : BME280Component σ) :
    ((write_byte bus c BME280_REGISTER_CONTROL
        (meas_register_value c.temperature_oversampling_ c.pressure_oversampling_)).1 = false →
      (update bus c).warning = true ∧ (update bus c).pushed = c.pushed ∧
        (update bus c).timeouts = c.timeouts) ∧
    ((read_bytes bus c BME280_REGISTER_TEMPDATA 3).1 = none →
      ∃ c', Callback.run Callback.data bus c = .ok c' ∧ c'.warning = true ∧
        c'.pushed = c.pushed) ∧
    ((read_temperature_ bus c 0).1.isnan = false →
      ∃ c' P H, Callback.run Callback.data bus c = .ok c' ∧ c'.warning = false ∧
        c'.pushed = c.pushed ++ [(Channel.temperature, (read_temperature_ bus c 0).1),
          (Channel.pressure, P), (Channel.humidity, H)] ∧
        ((read_bytes bus (read_bytes bus c BME280_REGISTER_TEMPDATA 3).2
            BME280_REGISTER_PRESSUREDATA 3).1 = none → P = Reading.nan) ∧
        ((read_byte_16 bus (read_bytes bus (read_bytes bus c BME280_REGISTER_TEMPDATA 3).2
            BME280_REGISTER_PRESSUREDATA 3).2 BME280_REGISTER_HUMIDDATA).1 = none →
          H = Reading.nan)) := by
  refine ⟨?_, ?_, ?_⟩
  · intro hw
    rw [update_of_write_failed bus c hw]
    exact ⟨rfl, rfl, rfl⟩
  · intro ht
    have hn : (read_temperature_ bus c 0).1.isnan = true := by
      rw [read_temperature_of_failed_read bus c 0 ht]
      rfl
    exact ⟨_, callback_of_invalid_temperature bus c hn, rfl, rfl⟩
  · intro hv
    obtain ⟨P, hP, hcb⟩ := callback_of_valid_temperature bus c hv
    refine ⟨_, P, (read_humidity_ bus
      (read_pressure_ bus (read_temperature_ bus c 0).2.2 (read_temperature_ bus c 0).2.1).2
      (read_temperature_ bus c 0).2.1).1, hcb, rfl, ?_, ?_, ?_⟩
    · simp only [status_clear_warning, push_new_value, read_humidity_state, read_pressure_state,
        read_temperature_state, read_bytes, read_byte_16, List.append_assoc]
      rfl
    · intro hf
      rw [read_temperature_state] at hP
      rw [read_pressure_of_failed_read bus _ _ hf] at hP
      exact (Except.ok.inj hP).symm
    · intro hf
      rw [read_pressure_state, read_temperature_state]
      exact read_humidity_of_failed_read bus _ _ hf

/-- Witness of the amended C14: a device rejecting writes, one with an
unreadable temperature block, one with an unreadable pressure block. -/
theorem C14_transport_failures_in_a_cycle_witness :
    ((update (memory_bus_write_fails mem_device) reference_component).warning = true ∧
      (update (memory_bus_write_fails mem_device) reference_component).pushed
        = reference_component.pushed ∧
      (update (memory_bus_write_fails mem_device) reference_component).timeouts
        = reference_component.timeouts) ∧
    (∃ c', Callback.run Callback.data (memory_bus mem_temperature_unreadable)
        reference_component = .ok c' ∧ c'.warning = true ∧
        c'.pushed = reference_component.pushed) ∧
    (∃ c' P H, Callback.run Callback.data (memory_bus mem_pressure_unreadable)
        reference_component = .ok c' ∧ c'.warning = false ∧
        c'.pushed = reference_component.pushed ++
          [(Channel.temperature,
            (read_temperature_ (memory_bus mem_pressure_unreadable) reference_component 0).1),
          (Channel.pressure, P), (Channel.humidity, H)] ∧
        ((read_bytes (memory_bus mem_pressure_unreadable)
            (read_bytes (memory_bus mem_pressure_unreadable) reference_component
              BME280_REGISTER_TEMPDATA 3).2
            BME280_REGISTER_PRESSUREDATA 3).1 = none → P = Reading.nan) ∧
        ((read_byte_16 (memory_bus mem_pressure_unreadable)
            (read_bytes (memory_bus mem_pressure_unreadable)
              (read_bytes (memory_bus mem_pressure_unreadable) reference_component
                BME280_REGISTER_TEMPDATA 3).2
              BME280_REGISTER_PRESSUREDATA 3).2 BME280_REGISTER_HUMIDDATA).1 = none →
          H = Reading.nan)) :=
  ⟨(C14_transport_failures_in_a_cycle (memory_bus_write_fails mem_device)
      reference_component).1 (by decide),
   (C14_transport_failures_in_a_cycle (memory_bus mem_temperature_unreadable)
      reference_component).2.1 (by decide),
   (C14_transport_failures_in_a_cycle (memory_bus mem_pressure_unreadable)
      reference_component).2.2 (by decide)⟩

theorem swap16_eq (hi lo : Nat) (hhi : hi < 256) (hlo : lo < 256) :
    swap16 (hi * 256 + lo) = hi + 256 * lo := by
  have e1 : (hi * 256 + lo) >>> 8 = hi := by
    rw [Nat.shiftRight_eq_div_pow]
    omega
  have e2 : hi ||| ((hi * 256 + lo) <<< 8) = 2 ^ 8 * (hi * 256 + lo) + hi := by
    rw [Nat.shiftLeft_eq, Nat.lor_comm, Nat.mul_comm (hi * 256 + lo) (2 ^ 8)]
    exact (Nat.mul_add_lt_is_or (show hi < 2 ^ 8 by omega) _).symm
  unfold swap16
  rw [e1, e2]
  omega

theorem swap16_involutive (x : Nat) (h : x < 65536) : swap16 (swap16 x) = x := by
  have hx : x = (x / 256) * 256 + x % 256 := by omega
  rw [hx, swap16_eq _ _ (by omega) (by omega)]
  have : x / 256 + 256 * (x % 256) = (x % 256) * 256 + x / 256 := by omega
  rw [this, swap16_eq _ _ (by omega) (by omega)]
  omega

/-- C16: when the 16-bit bus read at `reg` delivers the big-endian pair
`hi * 256 + lo` (`hi` the byte at `reg`, `lo` the byte at `reg + 1`),
`read_u16_le` returns the little-endian value `hi + 256 * lo`, within
[0, 65535], and `read_s16_le` returns the same 16-bit pattern read as two's
complement, within [-32768, 32767]; when the bus read fails both return 0;
and the byte swap applied twice is the identity on 16-bit values. -/
theorem C16_little_endian_reads (bus : I2CBus σ) (c : BME280Component σ) (reg hi lo : Nat)
    (hhi : hi < 256) (hlo : lo < 256) :
    ((bus.read_byte_16 c.bus reg).1 = some (hi * 256 + lo) →
      (read_u16_le bus c reg).1 = hi + 256 * lo ∧
      (read_u16_le bus c reg).1 ≤ 65535 ∧
      (read_s16_le bus c reg).1
        = (if hi + 256 * lo < 32768 then ((hi + 256 * lo : Nat) : Int)
            else ((hi + 256 * lo : Nat) : Int) - 65536) ∧
      (-32768 ≤ (read_s16_le bus c reg).1 ∧ (read_s16_le bus c reg).1 ≤ 32767) ∧
      (read_s16_le bus c reg).1 % 65536 = ((read_u16_le bus c reg).1 : Int)) ∧
    ((bus.read_byte_16 c.bus reg).1 = none →
      (read_u16_le bus c reg).1 = 0 ∧ (read_s16_le bus c reg).1 = 0) ∧
    (∀ x : Nat, x < 65536 → swap16 (swap16 x) = x) := by
  refine ⟨?_, ?_, swap16_involutive⟩
  · intro h
    have hu : (read_u16_le bus c reg).1 = hi + 256 * lo := by
      unfold read_u16_le read_byte_16
      simp only [h, Option.map_some', Option.getD_some]
      rw [Nat.mod_eq_of_lt (by omega)]
      exact swap16_eq hi lo hhi hlo
    have hs : (read_s16_le bus c reg).1 = wrap16 ((read_u16_le bus c reg).1 : Int) := rfl
    rw [hs, hu]
    unfold wrap16
    refine ⟨rfl, by omega, ?_, ⟨by omega, by omega⟩, by omega⟩
    split_ifs <;> omega
  · intro h
    unfold read_s16_le read_u16_le read_byte_16
    simp only [h, Option.map_none', Option.getD_none]
    exact ⟨rfl, rfl⟩

/-- Witness of C16: the word 0x7E 0xED (a negative value) and a failed read. -/
theorem C16_little_endian_reads_witness :
    ((read_u16_le (memory_bus mem_reference) reference_component 0xFA).1 = 0x7E + 256 * 0xED ∧
      (read_u16_le (memory_bus mem_reference) reference_component 0xFA).1 ≤ 65535 ∧
      (read_s16_le (memory_bus mem_reference) reference_component 0xFA).1
        = (if 0x7E + 256 * 0xED < 32768 then ((0x7E + 256 * 0xED : Nat) : Int)
            else ((0x7E + 256 * 0xED : Nat) : Int) - 65536) ∧
      (-32768 ≤ (read_s16_le (memory_bus mem_reference) reference_component 0xFA).1 ∧
        (read_s16_le (memory_bus mem_reference) reference_component 0xFA).1 ≤ 32767) ∧
      (read_s16_le (memory_bus mem_reference) reference_component 0xFA).1 % 65536
        = ((read_u16_le (memory_bus mem_reference) reference_component 0xFA).1 : Int)) ∧
    ((read_u16_le (memory_bus mem_t1_unreadable) reference_component 0x88).1 = 0 ∧
      (read_s16_le (memory_bus mem_t1_unreadable) reference_component 0x88).1 = 0) :=
  ⟨(C16_little_endian_reads (memory_bus mem_reference) reference_component 0xFA 0x7E 0xED
      (by decide) (by decide)).1 (by decide),
   (C16_little_endian_reads (memory_bus mem_t1_unreadable) reference_component 0x88 0 0
      (by decide) (by decide)).2.1 (by decide)⟩

theorem update_log (bus : I2CBus σ) (c : BME280Component σ) :
    (update bus c).log = c.log ++ [BusOp.write_byte BME280_REGISTER_CONTROL
      (meas_register_value c.temperature_oversampling_ c.pressure_oversampling_)
      (bus.write_byte c.bus BME280_REGISTER_CONTROL
        (meas_register_value c.temperature_oversampling_ c.pressure_oversampling_)).1] := by
  cases hw : (write_byte bus c BME280_REGISTER_CONTROL
      (meas_register_value c.temperature_oversampling_ c.pressure_oversampling_)).1 with
  | false => rw [update_of_write_failed bus c hw]; rfl
  | true => rw [update_of_write_ok bus c hw]; rfl

theorem meas_register_value_eq :
    ∀ t ≤ 5, ∀ p ≤ 5,
      meas_register_value t p = ((t <<< 5) ||| (p <<< 2)) ||| 0b01 ∧
      meas_register_value t p < 256 ∧
      meas_register_value t p >>> 5 = t ∧
      (meas_register_value t p >>> 2) &&& 0b111 = p ∧
      meas_register_value t p &&& 0b11 = 0b01 := by
  decide

/-- C17: for temperature and pressure oversampling codes `t`, `p` in 0..5 the
byte `update()` writes to the measurement-control register is
`(t << 5) | (p << 2) | 0b01`; it fits in 8 bits, its bits 7..5 are `t`, its
bits 4..2 are `p`, its bits 1..0 are the forced-mode value 0b01, and the
transfer does not depend on the humidity oversampling or the filter setting. -/
theorem C17_measurement_control_byte (bus : I2CBus σ) (c : BME280Component σ)
    (ht : c.temperature_oversampling_ ≤ 5) (hp : c.pressure_oversampling_ ≤ 5) :
    (∃ ok : Bool, (update bus c).log = c.log ++ [BusOp.write_byte BME280_REGISTER_CONTROL
      (((c.temperature_oversampling_ <<< 5) ||| (c.pressure_oversampling_ <<< 2)) ||| 0b01)
      ok]) ∧
    ((c.temperature_oversampling_ <<< 5) ||| (c.pressure_oversampling_ <<< 2)) ||| 0b01 < 256 ∧
    (((c.temperature_oversampling_ <<< 5) ||| (c.pressure_oversampling_ <<< 2)) ||| 0b01) >>> 5
      = c.temperature_oversampling_ ∧
    ((((c.temperature_oversampling_ <<< 5) ||| (c.pressure_oversampling_ <<< 2)) ||| 0b01)
      >>> 2) &&& 0b111 = c.pressure_oversampling_ ∧
    (((c.temperature_oversampling_ <<< 5) ||| (c.pressure_oversampling_ <<< 2)) ||| 0b01)
      &&& 0b11 = 0b01 ∧
    (∀ h f : Nat,
      (update bus { c with humidity_oversampling_ := h, iir_filter_ := f }).log
        = (update bus c).log) := by
  obtain ⟨e, h1, h2, h3, h4⟩ := meas_register_value_eq _ ht _ hp
  rw [← e]
  refine ⟨⟨_, update_log bus c⟩, h1, h2, h3, h4, ?_⟩
  intro h f
  rw [update_log, update_log]

/-- Witness of C17 at 1x/1x oversampling (the byte 0x25). -/
theorem C17_measurement_control_byte_witness :
    (∃ ok : Bool, (update (memory_bus mem_device) reference_component).log
      = reference_component.log ++ [BusOp.write_byte BME280_REGISTER_CONTROL
        (((reference_component.temperature_oversampling_ <<< 5) |||
          (reference_component.pressure_oversampling_ <<< 2)) ||| 0b01) ok]) ∧
    ((reference_component.temperature_oversampling_ <<< 5) |||
      (reference_component.pressure_oversampling_ <<< 2)) ||| 0b01 < 256 ∧
    (((reference_component.temperature_oversampling_ <<< 5) |||
      (reference_component.pressure_oversampling_ <<< 2)) ||| 0b01) >>> 5
      = reference_component.temperature_oversampling_ ∧
    ((((reference_component.temperature_oversampling_ <<< 5) |||
      (reference_component.pressure_oversampling_ <<< 2)) ||| 0b01) >>> 2) &&& 0b111
      = reference_component.pressure_oversampling_ ∧
    (((reference_component.temperature_oversampling_ <<< 5) |||
      (reference_component.pressure_oversampling_ <<< 2)) ||| 0b01) &&& 0b11 = 0b01 ∧
    (∀ h f : Nat,
      (update (memory_bus mem_device)
        { reference_component with humidity_oversampling_ := h, iir_filter_ := f }).log
        = (update (memory_bus mem_device) reference_component).log) :=
  C17_measurement_control_byte (memory_bus mem_device) reference_component
    (by decide) (by decide)

/-- C18: a conversion cycle changes no permanent state.  For every bus and
every component state, `update()` and the completion callback it arms (which
always ends without fault) leave the calibration coefficients, the three
oversampling settings, the filter setting and the failed mark unchanged; of
the two status flags only the warning is written. -/
theorem C18_cycle_changes_no_permanent_state (bus : I2CBus σ) (c : BME280Component σ) :
    ((update bus c).calibration_ = c.calibration_ ∧
      (update bus c).temperature_oversampling_ = c.temperature_oversampling_ ∧
      (update bus c).pressure_oversampling_ = c.pressure_oversampling_ ∧
      (update bus c).humidity_oversampling_ = c.humidity_oversampling_ ∧
      (update bus c).iir_filter_ = c.iir_filter_ ∧
      (update bus c).failed = c.failed) ∧
    (∃ c', Callback.run Callback.data bus c = .ok c' ∧
      c'.calibration_ = c.calibration_ ∧
      c'.temperature_oversampling_ = c.temperature_oversampling_ ∧
      c'.pressure_oversampling_ = c.pressure_oversampling_ ∧
      c'.humidity_oversampling_ = c.humidity_oversampling_ ∧
      c'.iir_filter_ = c.iir_filter_ ∧
      c'.failed = c.failed) := by
  constructor
  · cases hw : (write_byte bus c BME280_REGISTER_CONTROL
        (meas_register_value c.temperature_oversampling_ c.pressure_oversampling_)).1 with
    | false =>
      rw [update_of_write_failed bus c hw]
      exact ⟨rfl, rfl, rfl, rfl, rfl, rfl⟩
    | true =>
      rw [update_of_write_ok bus c hw]
      exact ⟨rfl, rfl, rfl, rfl, rfl, rfl⟩
  · cases hn : (read_temperature_ bus c 0).1.isnan with
    | true =>
      exact ⟨_, callback_of_invalid_temperature bus c hn, rfl, rfl, rfl, rfl, rfl, rfl⟩
    | false =>
      obtain ⟨P, _, hcb⟩ := callback_of_valid_temperature bus c hn
      refine ⟨_, hcb, ?_, ?_, ?_, ?_, ?_, ?_⟩ <;>
        simp only [status_clear_warning, push_new_value, read_humidity_state,
          read_pressure_state, read_temperature_state, read_bytes, read_byte_16]

set_option maxRecDepth 20000 in
theorem humid_register_value_eq :
    ∀ c0 < 256, ∀ h ≤ 5,
      humid_register_value c0 h = (c0 &&& 0xF8) ||| h ∧
      humid_register_value c0 h < 256 ∧
      humid_register_value c0 h &&& 0xF8 = c0 &&& 0xF8 ∧
      humid_register_value c0 h &&& 0x07 = h := by
  decide

set_option maxRecDepth 20000 in
theorem config_register_value_eq :
    ∀ d < 256, ∀ f ≤ 4,
      config_register_value d f = (d &&& 0x03) ||| (f <<< 2) ∧
      config_register_value d f < 256 ∧
      config_register_value d f >>> 5 = 0 ∧
      (config_register_value d f >>> 2) &&& 0x07 = f ∧
      config_register_value d f &&& 0x03 = d &&& 0x03 := by
  decide

theorem read_byte_lt (bus : I2CBus σ) (c : BME280Component σ) (reg v : Nat)
    (h : (read_byte bus c reg).1 = some v) : v < 256 := by
  unfold read_byte at h
  simp only [] at h
  cases hr : (bus.read_byte c.bus reg).1 with
  | none => rw [hr] at h; exact absurd h (by simp)
  | some x =>
    rw [hr] at h
    simp only [Option.map_some', Option.some.injEq] at h
    omega

/-- A `write_configuration` that does not mark the component failed made
exactly four transfers, all successful: read and write of the
humidity-control register, read and write of the config register. -/
theorem write_configuration_success (bus : I2CBus σ) (c : BME280Component σ)
    (hf : (write_configuration bus c).failed = false) :
    ∃ c0 d, c0 < 256 ∧ d < 256 ∧
      (write_configuration bus c).log = c.log ++
        [BusOp.read_byte BME280_REGISTER_CONTROLHUMID (some c0),
         BusOp.write_byte BME280_REGISTER_CONTROLHUMID
           (humid_register_value c0 c.humidity_oversampling_) true,
         BusOp.read_byte BME280_REGISTER_CONFIG (some d),
         BusOp.write_byte BME280_REGISTER_CONFIG
           (config_register_value d c.iir_filter_) true] := by
  unfold write_configuration at hf ⊢
  simp only [] at hf ⊢
  cases h1 : (read_byte bus c BME280_REGISTER_CONTROLHUMID).1 with
  | none =>
    simp only [h1] at hf
    exact absurd hf (by simp [mark_failed])
  | some v1 =>
    have hv1 := read_byte_lt bus c _ v1 h1
    simp only [h1] at hf ⊢
    cases h2 : (write_byte bus (read_byte bus c BME280_REGISTER_CONTROLHUMID).2
        BME280_REGISTER_CONTROLHUMID (humid_register_value v1
          (read_byte bus c BME280_REGISTER_CONTROLHUMID).2.humidity_oversampling_)).1 with
    | false =>
      simp only [h2, if_true] at hf
      exact absurd hf (by simp [mark_failed])
    | true =>
      simp only [h2, Bool.true_eq_false, if_false] at hf ⊢
      cases h3 : (read_byte bus (write_byte bus (read_byte bus c BME280_REGISTER_CONTROLHUMID).2
          BME280_REGISTER_CONTROLHUMID (humid_register_value v1
            (read_byte bus c BME280_REGISTER_CONTROLHUMID).2.humidity_oversampling_)).2
          BME280_REGISTER_CONFIG).1 with
      | none =>
        simp only [h3] at hf
        exact absurd hf (by simp [mark_failed])
      | some v2 =>
        have hv2 := read_byte_lt bus _ _ v2 h3
        simp only [h3] at hf ⊢
        cases h4 : (write_byte bus (read_byte bus (write_byte bus
            (read_byte bus c BME280_REGISTER_CONTROLHUMID).2
            BME280_REGISTER_CONTROLHUMID (humid_register_value v1
              (read_byte bus c BME280_REGISTER_CONTROLHUMID).2.humidity_oversampling_)).2
            BME280_REGISTER_CONFIG).2 BME280_REGISTER_CONFIG
            (config_register_value v2 (read_byte bus (write_byte bus
              (read_byte bus c BME280_REGISTER_CONTROLHUMID).2
              BME280_REGISTER_CONTROLHUMID (humid_register_value v1
                (read_byte bus c BME280_REGISTER_CONTROLHUMID).2.humidity_oversampling_)).2
              BME280_REGISTER_CONFIG).2.iir_filter_)).1 with
        | false =>
          simp only [h4, if_true] at hf
          exact absurd hf (by simp [mark_failed])
        | true =>
          simp only [h4, Bool.true_eq_false, if_false]
          refine ⟨v1, v2, hv1, hv2, ?_⟩
          simp only [read_byte, write_byte] at h1 h2 h3 h4 ⊢
          rw [h1, h2, h3, h4]
          simp

theorem filter_nil_of_forall {α : Type} (p : α → Bool) (l : List α)
    (h : ∀ a ∈ l, p a = false) : l.filter p = [] := by
  induction l with
  | nil => rfl
  | cons a t ih =>
    have ha := h a (List.mem_cons_self a t)
    rw [List.filter_cons, ha]
    exact ih (fun b hb => h b (List.mem_cons_of_mem a hb))

/-- C19: in a `setup()` that ends without the failed mark, with humidity
oversampling code `h` in 0..5 and filter code `f` in 0..4, the transfers on
the humidity-control and config registers are exactly: a read of the
humidity-control register delivering some byte `c0`, the write of
`(c0 & 0xF8) | h` to it, a read of the config register delivering some byte
`d`, the write of `(d & 0x03) | (f << 2)` to it; these two writes are the only
writes of `setup()`, so each register is written exactly once.  The first
byte keeps bits 7..3 of `c0` and has bits 2..0 equal to `h`; the second has
bits 7..5 zero, bits 4..2 equal to `f` and keeps bits 1..0 of `d`. -/
theorem C19_configuration_register_writes (bus : I2CBus σ) (c : BME280Component σ)
    (hs : (setup bus c).failed = false)
    (hh : c.humidity_oversampling_ ≤ 5) (hf : c.iir_filter_ ≤ 4) :
    ∃ c0 d, c0 < 256 ∧ d < 256 ∧
      ((setup bus c).log.drop c.log.length).filter
          (fun op => decide (op.reg = BME280_REGISTER_CONTROLHUMID ∨
            op.reg = BME280_REGISTER_CONFIG))
        = [BusOp.read_byte BME280_REGISTER_CONTROLHUMID (some c0),
           BusOp.write_byte BME280_REGISTER_CONTROLHUMID
             ((c0 &&& 0xF8) ||| c.humidity_oversampling_) true,
           BusOp.read_byte BME280_REGISTER_CONFIG (some d),
           BusOp.write_byte BME280_REGISTER_CONFIG
             ((d &&& 0x03) ||| (c.iir_filter_ <<< 2)) true] ∧
      ((setup bus c).log.drop c.log.length).filter BusOp.isWrite
        = [BusOp.write_byte BME280_REGISTER_CONTROLHUMID
             ((c0 &&& 0xF8) ||| c.humidity_oversampling_) true,
           BusOp.write_byte BME280_REGISTER_CONFIG
             ((d &&& 0x03) ||| (c.iir_filter_ <<< 2)) true] ∧
      (((c0 &&& 0xF8) ||| c.humidity_oversampling_) < 256 ∧
        ((c0 &&& 0xF8) ||| c.humidity_oversampling_) &&& 0xF8 = c0 &&& 0xF8 ∧
        ((c0 &&& 0xF8) ||| c.humidity_oversampling_) &&& 0x07 = c.humidity_oversampling_) ∧
      (((d &&& 0x03) ||| (c.iir_filter_ <<< 2)) < 256 ∧
        ((d &&& 0x03) ||| (c.iir_filter_ <<< 2)) >>> 5 = 0 ∧
        (((d &&& 0x03) ||| (c.iir_filter_ <<< 2)) >>> 2) &&& 0x07 = c.iir_filter_ ∧
        ((d &&& 0x03) ||| (c.iir_filter_ <<< 2)) &&& 0x03 = d &&& 0x03) := by
  have hid : (read_byte bus c BME280_REGISTER_CHIPID).1 = some 0x60 := by
    by_contra hne
    rw [setup_of_chip_bad bus c hne] at hs
    exact absurd hs (by simp [mark_failed])
  rw [setup_of_chip_ok bus c hid] at hs ⊢
  obtain ⟨L, hL, hLg⟩ := read_calibration_log bus (read_byte bus c BME280_REGISTER_CHIPID).2
  obtain ⟨c0, d, hc0, hd, hW⟩ := write_configuration_success bus _ hs
  have hho :
      (read_calibration bus (read_byte bus c BME280_REGISTER_CHIPID).2).humidity_oversampling_
        = c.humidity_oversampling_ := rfl
  have hio : (read_calibration bus (read_byte bus c BME280_REGISTER_CHIPID).2).iir_filter_
      = c.iir_filter_ := rfl
  obtain ⟨e1, b1, b2, b3⟩ := humid_register_value_eq c0 hc0 _ hh
  obtain ⟨e2, g1, g2, g3, g4⟩ := config_register_value_eq d hd _ hf
  rw [hho, hio, e1, e2] at hW
  rw [e1] at b1 b2 b3
  rw [e2] at g1 g2 g3 g4
  have hc1 : (read_byte bus c BME280_REGISTER_CHIPID).2.log
      = c.log ++ [BusOp.read_byte BME280_REGISTER_CHIPID
        (read_byte bus c BME280_REGISTER_CHIPID).1] := rfl
  have hlog : (write_configuration bus
      (read_calibration bus (read_byte bus c BME280_REGISTER_CHIPID).2)).log
      = c.log ++ ([BusOp.read_byte BME280_REGISTER_CHIPID
        (read_byte bus c BME280_REGISTER_CHIPID).1] ++ (L ++
          [BusOp.read_byte BME280_REGISTER_CONTROLHUMID (some c0),
           BusOp.write_byte BME280_REGISTER_CONTROLHUMID
             ((c0 &&& 0xF8) ||| c.humidity_oversampling_) true,
           BusOp.read_byte BME280_REGISTER_CONFIG (some d),
           BusOp.write_byte BME280_REGISTER_CONFIG
             ((d &&& 0x03) ||| (c.iir_filter_ <<< 2)) true])) := by
    rw [hW, hL, hc1]
    simp only [List.append_assoc]
  have hLreg : L.filter (fun op => decide (op.reg = BME280_REGISTER_CONTROLHUMID ∨
      op.reg = BME280_REGISTER_CONFIG)) = [] := by
    apply filter_nil_of_forall
    intro op hop
    have := (hLg op hop).2
    simp only [BME280_REGISTER_CONTROLHUMID, BME280_REGISTER_CONFIG, decide_eq_false_iff_not]
    omega
  have hLwr : L.filter BusOp.isWrite = [] :=
    filter_nil_of_forall _ _ (fun op hop => (hLg op hop).1)
  refine ⟨c0, d, hc0, hd, ?_, ?_, ⟨b1, b2, b3⟩, ⟨g1, g2, g3, g4⟩⟩
  · rw [hlog, List.drop_left, List.filter_append, List.filter_append, hLreg]
    simp [BusOp.reg, BME280_REGISTER_CHIPID, BME280_REGISTER_CONTROLHUMID,
      BME280_REGISTER_CONFIG]
  · rw [hlog, List.drop_left, List.filter_append, List.filter_append, hLwr]
    simp [BusOp.isWrite]

/-- Witness of C19: both registers hold 0xFF, `h` = 5, `f` = 4. -/
theorem C19_configuration_register_writes_witness :
    ∃ c0 d, c0 < 256 ∧ d < 256 ∧
      ((setup (memory_bus mem_configured) configured_component).log.drop
          configured_component.log.length).filter
          (fun op => decide (op.reg = BME280_REGISTER_CONTROLHUMID ∨
            op.reg = BME280_REGISTER_CONFIG))
        = [BusOp.read_byte BME280_REGISTER_CONTROLHUMID (some c0),
           BusOp.write_byte BME280_REGISTER_CONTROLHUMID
             ((c0 &&& 0xF8) ||| configured_component.humidity_oversampling_) true,
           BusOp.read_byte BME280_REGISTER_CONFIG (some d),
           BusOp.write_byte BME280_REGISTER_CONFIG
             ((d &&& 0x03) ||| (configured_component.iir_filter_ <<< 2)) true] ∧
      ((setup (memory_bus mem_configured) configured_component).log.drop
          configured_component.log.length).filter BusOp.isWrite
        = [BusOp.write_byte BME280_REGISTER_CONTROLHUMID
             ((c0 &&& 0xF8) ||| configured_component.humidity_oversampling_) true,
           BusOp.write_byte BME280_REGISTER_CONFIG
             ((d &&& 0x03) ||| (configured_component.iir_filter_ <<< 2)) true] ∧
      (((c0 &&& 0xF8) ||| configured_component.humidity_oversampling_) < 256 ∧
        ((c0 &&& 0xF8) ||| configured_component.humidity_oversampling_) &&& 0xF8
          = c0 &&& 0xF8 ∧
        ((c0 &&& 0xF8) ||| configured_component.humidity_oversampling_) &&& 0x07
          = configured_component.humidity_oversampling_) ∧
      (((d &&& 0x03) ||| (configured_component.iir_filter_ <<< 2)) < 256 ∧
        ((d &&& 0x03) ||| (configured_component.iir_filter_ <<< 2)) >>> 5 = 0 ∧
        (((d &&& 0x03) ||| (configured_component.iir_filter_ <<< 2)) >>> 2) &&& 0x07
          = configured_component.iir_filter_ ∧
        ((d &&& 0x03) ||| (configured_component.iir_filter_ <<< 2)) &&& 0x03 = d &&& 0x03) :=
  C19_configuration_register_writes (memory_bus mem_configured) configured_component
    (by decide) (by decide) (by decide)

/-- On a device whose humidity-control register holds 0xFF and whose config
register holds 0xFF, with humidity oversampling 16x and filter 16x, `setup()`
writes 0xFD and 0x13. -/
theorem setup_configuration_example :
    ((setup (memory_bus mem_configured) configured_component).log.drop
        configured_component.log.length).filter BusOp.isWrite
      = [BusOp.write_byte BME280_REGISTER_CONTROLHUMID 0xFD true,
         BusOp.write_byte BME280_REGISTER_CONFIG 0x13 true] := by
  decide

theorem meas_delay_mono (t p h t' p' h' : Nat) (ht : t ≤ t') (hp : p ≤ p') (hh : h ≤ h')
    (ht' : t' ≤ 5) (hp' : p' ≤ 5) (hh' : h' ≤ 5) :
    meas_delay t p h ≤ meas_delay t' p' h' := by
  rw [meas_delay_closed_form t (by omega) p (by omega) h (by omega),
    meas_delay_closed_form t' (by omega) p' (by omega) h' (by omega)]
  have h1 := oversampling_to_time_mono t (by omega) t' (by omega) ht
  have h2 := oversampling_to_time_mono p (by omega) p' (by omega) hp
  have h3 := oversampling_to_time_mono h (by omega) h' (by omega) hh
  apply Nat.div_le_div_right
  omega

/-- C20: for every combination of the three oversampling settings, with
sample counts `nT`, `nP`, `nH` (code 0 has 0 samples, 1 has 1, 2 has 2, 3 has
4, 4 has 8, 5 has 16), `update()` arms its callback exactly when the write of
the measurement-control register succeeds, and the delay it arms is at least
the vendor's maximum measurement time
`1.25 + 2.3*nT + (2.3*nP + 0.575) + (2.3*nH + 0.575)` ms, is non-decreasing
in each of the three settings, and lies between 4 ms (all channels disabled)
and 169 ms (all channels at 16x). -/
theorem C20_delay_covers_measurement_time (bus : I2CBus σ) (c : BME280Component σ)
    (nT nP nH : Nat)
    (hT : (c.temperature_oversampling_, nT) ∈ [(0, 0), (1, 1), (2, 2), (3, 4), (4, 8), (5, 16)])
    (hP : (c.pressure_oversampling_, nP) ∈ [(0, 0), (1, 1), (2, 2), (3, 4), (4, 8), (5, 16)])
    (hH : (c.humidity_oversampling_, nH) ∈ [(0, 0), (1, 1), (2, 2), (3, 4), (4, 8), (5, 16)]) :
    ((update bus c).timeouts =
      (if (write_byte bus c BME280_REGISTER_CONTROL
          (meas_register_value c.temperature_oversampling_ c.pressure_oversampling_)).1 = true
        then c.timeouts ++ [Timeout.mk "data"
          (meas_delay c.temperature_oversampling_ c.pressure_oversampling_
            c.humidity_oversampling_) Callback.data]
        else c.timeouts)) ∧
    ((5 / 4 : ℚ) + 23 / 10 * (nT : ℚ) + (23 / 10 * (nP : ℚ) + 575 / 1000)
        + (23 / 10 * (nH : ℚ) + 575 / 1000)
      ≤ (meas_delay c.temperature_oversampling_ c.pressure_oversampling_
          c.humidity_oversampling_ : ℚ)) ∧
    (∀ t' p' h' : Nat, c.temperature_oversampling_ ≤ t' → c.pressure_oversampling_ ≤ p' →
      c.humidity_oversampling_ ≤ h' → t' ≤ 5 → p' ≤ 5 → h' ≤ 5 →
      meas_delay c.temperature_oversampling_ c.pressure_oversampling_ c.humidity_oversampling_
        ≤ meas_delay t' p' h') ∧
    (4 ≤ meas_delay c.temperature_oversampling_ c.pressure_oversampling_
        c.humidity_oversampling_ ∧
      meas_delay c.temperature_oversampling_ c.pressure_oversampling_
        c.humidity_oversampling_ ≤ 169) ∧
    meas_delay 0 0 0 = 4 ∧ meas_delay 5 5 5 = 169 := by
  have htab : ∀ code n : Nat, (code, n) ∈ [(0, 0), (1, 1), (2, 2), (3, 4), (4, 8), (5, 16)] →
      code ≤ 5 ∧ oversampling_to_time code = n := by
    intro code n h
    simp only [List.mem_cons, Prod.mk.injEq, List.mem_singleton, List.not_mem_nil,
      or_false] at h
    rcases h with ⟨rfl, rfl⟩ | ⟨rfl, rfl⟩ | ⟨rfl, rfl⟩ | ⟨rfl, rfl⟩ | ⟨rfl, rfl⟩ | ⟨rfl, rfl⟩ <;>
      decide
  obtain ⟨ht, eT⟩ := htab _ _ hT
  obtain ⟨hp, eP⟩ := htab _ _ hP
  obtain ⟨hh, eH⟩ := htab _ _ hH
  have h0 : meas_delay 0 0 0 = 4 := by decide
  have h5 : meas_delay 5 5 5 = 169 := by decide
  refine ⟨?_, ?_, ?_, ⟨?_, ?_⟩, h0, h5⟩
  · cases hw : (write_byte bus c BME280_REGISTER_CONTROL
        (meas_register_value c.temperature_oversampling_ c.pressure_oversampling_)).1 with
    | false =>
      unfold update
      simp only [hw, if_true, Bool.false_eq_true, if_false]
      rfl
    | true =>
      unfold update
      simp only [hw, Bool.true_eq_false, if_false, if_true]
      rfl
  · rw [meas_delay_closed_form _ (by omega) _ (by omega) _ (by omega), eT, eP, eH]
    have h1 := Nat.div_add_mod (138 * (nT + nP + nH) + 168) 40
    have h2 := Nat.mod_lt (138 * (nT + nP + nH) + 168) (show 40 > 0 by norm_num)
    generalize (138 * (nT + nP + nH) + 168) / 40 = k at *
    generalize (138 * (nT + nP + nH) + 168) % 40 = r at *
    have hq : (40 * k + r : ℚ) = 138 * (nT + nP + nH) + 168 := by exact_mod_cast h1
    have hr : (r : ℚ) ≤ 39 := by exact_mod_cast (show r ≤ 39 by omega)
    have ha : (0 : ℚ) ≤ nT := Nat.cast_nonneg nT
    have hb : (0 : ℚ) ≤ nP := Nat.cast_nonneg nP
    have hd : (0 : ℚ) ≤ nH := Nat.cast_nonneg nH
    linarith
  · intro t' p' h' h1 h2 h3 h4 h5 h6
    exact meas_delay_mono _ _ _ _ _ _ h1 h2 h3 h4 h5 h6
  · rw [← h0]
    exact meas_delay_mono _ _ _ _ _ _ (Nat.zero_le _) (Nat.zero_le _) (Nat.zero_le _) ht hp hh
  · rw [← h5]
    exact meas_delay_mono _ _ _ _ _ _ ht hp hh (le_refl _) (le_refl _) (le_refl _)

/-- Witness of C20 at 4x/4x/4x oversampling: the armed delay is 45 ms, the
vendor time 30 ms. -/
theorem C20_delay_covers_measurement_time_witness :
    (update (memory_bus mem_device) oversampled_component).timeouts
      = [Timeout.mk "data" 45 Callback.data] ∧
    ((update (memory_bus mem_device) oversampled_component).timeouts =
      (if (write_byte (memory_bus mem_device) oversampled_component BME280_REGISTER_CONTROL
          (meas_register_value oversampled_component.temperature_oversampling_
            oversampled_component.pressure_oversampling_)).1 = true
        then oversampled_component.timeouts ++ [Timeout.mk "data"
          (meas_delay oversampled_component.temperature_oversampling_
            oversampled_component.pressure_oversampling_
            oversampled_component.humidity_oversampling_) Callback.data]
        else oversampled_component.timeouts)) ∧
    ((5 / 4 : ℚ) + 23 / 10 * ((4 : Nat) : ℚ) + (23 / 10 * ((4 : Nat) : ℚ) + 575 / 1000)
        + (23 / 10 * ((4 : Nat) : ℚ) + 575 / 1000)
      ≤ (meas_delay oversampled_component.temperature_oversampling_
          oversampled_component.pressure_oversampling_
          oversampled_component.humidity_oversampling_ : ℚ)) ∧
    (∀ t' p' h' : Nat, oversampled_component.temperature_oversampling_ ≤ t' →
      oversampled_component.pressure_oversampling_ ≤ p' →
      oversampled_component.humidity_oversampling_ ≤ h' → t' ≤ 5 → p' ≤ 5 → h' ≤ 5 →
      meas_delay oversampled_component.temperature_oversampling_
          oversampled_component.pressure_oversampling_
          oversampled_component.humidity_oversampling_
        ≤ meas_delay t' p' h') ∧
    (4 ≤ meas_delay oversampled_component.temperature_oversampling_
        oversampled_component.pressure_oversampling_
        oversampled_component.humidity_oversampling_ ∧
      meas_delay oversampled_component.temperature_oversampling_
        oversampled_component.pressure_oversampling_
        oversampled_component.humidity_oversampling_ ≤ 169) ∧
    meas_delay 0 0 0 = 4 ∧ meas_delay 5 5 5 = 169 :=
  ⟨by rfl,
   C20_delay_covers_measurement_time (memory_bus mem_device) oversampled_component 4 4 4
    (by decide) (by decide) (by decide)⟩

/-- At 4x/4x/4x the armed delay is 45 ms against a vendor time of 30 ms. -/
theorem delay_at_4x_example :
    (update (memory_bus mem_device) oversampled_component).timeouts
      = [Timeout.mk "data" 45 Callback.data] ∧
    (5 / 4 : ℚ) + 23 / 10 * 4 + (23 / 10 * 4 + 575 / 1000) + (23 / 10 * 4 + 575 / 1000) = 30 := by
  refine ⟨by rfl, by norm_num⟩

end sensor

namespace cover

theorem tolower_ne_zero (c : Nat) (h : c ≠ 0) : tolower c ≠ 0 := by
  unfold tolower
  split_ifs <;> omega

/-- On C strings `strcasecmp` returns 0 exactly for strings equal up to ASCII
case. -/
theorem strcasecmp_eq_zero_iff (a b : List Nat) (ha : 0 ∉ a) (hb : 0 ∉ b) :
    strcasecmp a b = 0 ↔ eq_ignoring_case a b := by
  unfold eq_ignoring_case
  induction a generalizing b with
  | nil =>
    cases b with
    | nil => simp [strcasecmp]
    | cons y t =>
      have hy : y ≠ 0 := fun e => hb (by simp [e])
      have := tolower_ne_zero y hy
      simp only [strcasecmp, List.map_nil, List.map_cons]
      constructor
      · intro h; omega
      · intro h; exact absurd h (by simp)
  | cons x s ih =>
    have hx : x ≠ 0 := fun e => ha (by simp [e])
    have hs : 0 ∉ s := fun h => ha (List.mem_cons_of_mem x h)
    cases b with
    | nil =>
      have := tolower_ne_zero x hx
      simp only [strcasecmp, List.map_nil, List.map_cons]
      constructor
      · intro h; omega
      · intro h; exact absurd h (by simp)
    | cons y t =>
      have ht : 0 ∉ t := fun h => hb (List.mem_cons_of_mem y h)
      simp only [strcasecmp, List.map_cons, List.cons.injEq]
      split_ifs with hxy
      · rw [ih t hs ht]
        simp [hxy]
      · constructor
        · intro h; omega
        · intro h; exact absurd h.1 hxy

theorem c_str_no_nul (s : List Nat) : 0 ∉ c_str s := by
  unfold c_str
  intro h
  have := List.mem_takeWhile_imp h
  simp at this

theorem c_str_of_no_nul (s : List Nat) (h : 0 ∉ s) : c_str s = s := by
  unfold c_str
  rw [List.takeWhile_eq_self_iff]
  intro b hb
  simp only [ne_eq, decide_not, Bool.not_eq_true', decide_eq_false_iff_not]
  intro e
  exact h (e ▸ hb)


theorem literals_no_nul : 0 ∉ OPEN ∧ 0 ∉ CLOSE ∧ 0 ∉ STOP := by decide

theorem literals_distinct (s : List Nat) :
    (eq_ignoring_case s OPEN → ¬ eq_ignoring_case s CLOSE ∧ ¬ eq_ignoring_case s STOP) ∧
    (eq_ignoring_case s CLOSE → ¬ eq_ignoring_case s STOP) := by
  unfold eq_ignoring_case
  constructor
  · intro h
    rw [h]
    decide
  · intro h
    rw [h]
    decide

/-- C15, counterexample: the payload `OPEN\0!` (six bytes, a NUL byte after
"OPEN") makes the handler call `open()` although the payload does not equal
"OPEN" ignoring case: `strcasecmp` reads `payload.c_str()` only up to the
first NUL byte. -/
theorem C15_payload_with_nul_byte :
    command_callback [0x4F, 0x50, 0x45, 0x4E, 0x00, 0x21] = [CoverCall.open_] ∧
    ¬ eq_ignoring_case [0x4F, 0x50, 0x45, 0x4E, 0x00, 0x21] OPEN := by
  decide

/-- C15, amended: let `s` be the payload up to its first NUL byte, the C
string `payload.c_str()` that `strcasecmp` reads.  For every payload the
handler makes the single call `open()` exactly when `s` equals "OPEN" ignoring
ASCII case, the single call `close()` exactly when `s` equals "CLOSE", the
single call `stop()` exactly when `s` equals "STOP"; it never makes more than
one call and makes none exactly when `s` equals none of the three.  For a
payload without NUL byte `s` is the payload itself. -/
theorem C15_command_dispatch (payload : List Nat) :
    (command_callback payload = [CoverCall.open_] ↔
      eq_ignoring_case (c_str payload) OPEN) ∧
    (command_callback payload = [CoverCall.close] ↔
      eq_ignoring_case (c_str payload) CLOSE) ∧
    (command_callback payload = [CoverCall.stop] ↔
      eq_ignoring_case (c_str payload) STOP) ∧
    (command_callback payload).length ≤ 1 ∧
    (command_callback payload = [] ↔
      ¬ eq_ignoring_case (c_str payload) OPEN ∧ ¬ eq_ignoring_case (c_str payload) CLOSE ∧
        ¬ eq_ignoring_case (c_str payload) STOP) ∧
    (0 ∉ payload → c_str payload = payload) := by
  have hn := c_str_no_nul payload
  have ho := strcasecmp_eq_zero_iff (c_str payload) OPEN hn literals_no_nul.1
  have hc := strcasecmp_eq_zero_iff (c_str payload) CLOSE hn literals_no_nul.2.1
  have hs := strcasecmp_eq_zero_iff (c_str payload) STOP hn literals_no_nul.2.2
  have hd := literals_distinct (c_str payload)
  refine ⟨?_, ?_, ?_, ?_, ?_, c_str_of_no_nul payload⟩
  all_goals
    unfold command_callback
    rw [← ho, ← hc, ← hs] at hd
    try rw [← ho]
    try rw [← hc]
    try rw [← hs]
    split_ifs with h1 h2 h3 <;> simp_all

/-- Witness of the amended C15 at the payload "oPeN". -/
theorem C15_command_dispatch_witness :
    (command_callback [0x6F, 0x50, 0x65, 0x4E] = [CoverCall.open_] ↔
      eq_ignoring_case (c_str [0x6F, 0x50, 0x65, 0x4E]) OPEN) ∧
    c_str [0x6F, 0x50, 0x65, 0x4E] = [0x6F, 0x50, 0x65, 0x4E] :=
  ⟨(C15_command_dispatch [0x6F, 0x50, 0x65, 0x4E]).1,
   (C15_command_dispatch [0x6F, 0x50, 0x65, 0x4E]).2.2.2.2.2 (by decide)⟩

/-- The handler on "oPeN", "close", "Stop", "OPEN " and the empty payload. -/
theorem command_callback_examples :
    command_callback [0x6F, 0x50, 0x65, 0x4E] = [CoverCall.open_] ∧
    command_callback [0x63, 0x6C, 0x6F, 0x73, 0x65] = [CoverCall.close] ∧
    command_callback [0x53, 0x74, 0x6F, 0x70] = [CoverCall.stop] ∧
    command_callback [0x4F, 0x50, 0x45, 0x4E, 0x20] = [] ∧
    command_callback [] = [] := by
  decide

end cover

end esphomelib
